import Mathlib

/-!
Shallow embedding of `src/tooling/bundler/src/bundle/macos/dmg.rs`, the macOS
DMG bundling pipeline of the tauri bundler.

The pipeline is a straight line of fallible effectful steps.  It is embedded
as a pure function from (Settings, bundle descriptors, World) to a result
together with the ordered trace of observable side effects, where `World` is
an oracle fixing the outcome of every external or fallible operation of the
run (filesystem calls, the icon generator, the hdiutil subprocess, the
signer).  Each `step_*` definition below corresponds to one statement group
of `bundle_project` in the source, in source order.
-/

namespace TauriDmg

/-- A filesystem path as its list of components (mirrors `PathBuf`; joining
a multi-component relative path appends its components). -/
abbrev Path := List String

/-- Renders a path the way it is handed to external processes. -/
def renderPath (p : Path) : String := String.intercalate "/" p

/-- Modelled from the spec: the package-type tag carried by a bundle
descriptor (the `PackageType` enum itself lives outside `src/`); the
pipeline only ever compares a tag against the macOS application-bundle tag
(`MacOsBundle`), so every other tag is kept opaque. -/
inductive PackageType where
  | MacOsBundle : PackageType
  | otherTag : String → PackageType
deriving DecidableEq, Repr

/-- Modelled from the spec: a bundle descriptor, read-only input identifying
a previously produced artifact by its package-type tag. -/
structure Bundle where
  package_type : PackageType
deriving DecidableEq, Repr

/-- Modelled from the spec: the opaque read-only configuration object, with
exactly the accessors the source reads (`project_out_directory`,
`main_binary_name`, `version_string`, `binary_arch`, `macos().license`,
`macos().signing_identity`). -/
structure Settings where
  project_out_directory : Path
  main_binary_name : String
  version_string : String
  binary_arch : String
  license : Option String
  signing_identity : Option String
deriving DecidableEq, Repr

/-- An error value: either a bare underlying error (propagated by a plain
question mark), or one wrapped by anyhow's `.context`/`.with_context` with a
contextual message. -/
inductive Err where
  | io : String → Err
  | context : String → Err → Err
deriving DecidableEq, Repr

/-- Whether the outermost layer of the error carries contextual information
added by the pipeline. -/
def Err.hasContext : Err → Bool
  | Err.context _ _ => true
  | Err.io _ => false

/-- Captured output of a launched process (`std::process::Output`): exit
code and the two captured streams. -/
structure ProcOutput where
  exitCode : Int
  stdout : String
  stderr : String
deriving DecidableEq, Repr

/-- The observable side effects of one pipeline run, in program order.
Collaborator invocations (`buildApp`, `sign`) record the `Settings` value
they are handed, exactly as the source passes `settings` along. -/
inductive Event where
  | buildApp : Settings → Event
  | logInfo : String → Path → Event
  | removeDirAll : Path → Event
  | createDirAll : Path → Event
  | copyDir : Path → Path → Event
  | writeFile : Path → Event
  | createIcns : Path → Event
  | copyFile : Path → Path → Event
  | printDebug : Path → Path → String → String → String → Event
  | runProcess : String → Path → List String → Bool → Bool → Event
  | rename : Path → Path → Event
  | sign : Path → String → Settings → Bool → Event
deriving DecidableEq, Repr

/-- An event with any `Settings` payload erased, keeping every path, name,
argument and flag: the shape of the operation as the filesystem and the
external processes observe it. -/
inductive EventOp where
  | buildApp : EventOp
  | logInfo : String → Path → EventOp
  | removeDirAll : Path → EventOp
  | createDirAll : Path → EventOp
  | copyDir : Path → Path → EventOp
  | writeFile : Path → EventOp
  | createIcns : Path → EventOp
  | copyFile : Path → Path → EventOp
  | printDebug : Path → Path → String → String → String → EventOp
  | runProcess : String → Path → List String → Bool → Bool → EventOp
  | rename : Path → Path → EventOp
  | sign : Path → String → Bool → EventOp
deriving DecidableEq, Repr

/-- Projection of an event to its settings-free operation. -/
def Event.opOf : Event → EventOp
  | Event.buildApp _ => EventOp.buildApp
  | Event.logInfo a b => EventOp.logInfo a b
  | Event.removeDirAll p => EventOp.removeDirAll p
  | Event.createDirAll p => EventOp.createDirAll p
  | Event.copyDir a b => EventOp.copyDir a b
  | Event.writeFile p => EventOp.writeFile p
  | Event.createIcns p => EventOp.createIcns p
  | Event.copyFile a b => EventOp.copyFile a b
  | Event.printDebug a b c d e => EventOp.printDebug a b c d e
  | Event.runProcess n c a o e => EventOp.runProcess n c a o e
  | Event.rename a b => EventOp.rename a b
  | Event.sign p i _ d => EventOp.sign p i d

/-- Whether an event is an external-process invocation. -/
def Event.isRunProcess : Event → Bool
  | Event.runProcess _ _ _ _ _ => true
  | _ => false

/-- The oracle fixing the outcome of every fallible or external operation of
one run: `none` means the operation succeeds, `some e` that it fails with
the underlying error `e`.  The file lists describe what the external
collaborators put on disk when they run. -/
structure World where
  buildAppErr : Option Err
  buildAppFiles : List Path
  outputPathExists : Bool
  removeOldErr : Option Err
  createTempErr : Option Err
  createSupportErr : Option Err
  copyAppErr : Option Err
  appBundleFiles : List Path
  writeEulaErr : Option Err
  icnsErr : Option Err
  icnsPath : Option Path
  icnsFiles : List Path
  copyIconErr : Option Err
  ciVar : Option String
  hdiutilLaunchErr : Option Err
  hdiutilOutput : ProcOutput
  renameErr : Option Err
  signErr : Option Err
deriving DecidableEq, Repr

/-- Source line 40: `settings.project_out_directory().join("bundle/dmg")`. -/
def output_path (s : Settings) : Path := s.project_out_directory ++ ["bundle", "dmg"]

/-- Source lines 45-48: architecture aliasing inside the base-name format. -/
def arch_alias (arch : String) : String := if arch = "x86_64" then "x64" else arch

/-- Source lines 41-49: `package_base_name`. -/
def package_base_name (s : Settings) : String :=
  s.main_binary_name ++ "_" ++ s.version_string ++ "_" ++ arch_alias s.binary_arch

/-- Source line 50: `dmg_name`. -/
def dmg_name (s : Settings) : String := package_base_name s ++ ".dmg"

/-- Source line 51: `dmg_path`. -/
def dmg_path (s : Settings) : Path := output_path s ++ [dmg_name s]

/-- Source line 54: `bundle_file_name`. -/
def bundle_file_name (s : Settings) : String := s.main_binary_name ++ ".app"

/-- Source line 55: `bundle_dir`. -/
def bundle_dir (s : Settings) : Path := s.project_out_directory ++ ["bundle", "macos"]

/-- Source line 65: `temp_dir`. -/
def temp_dir (s : Settings) : Path := output_path s ++ ["temp"]

/-- Source line 69: `support_dir`. -/
def support_dir (s : Settings) : Path := temp_dir s ++ ["support"]

/-- Source lines 164-176: the argument list handed to hdiutil. -/
def hdiutil_args (s : Settings) : List String :=
  ["create", dmg_name s, "-volname", s.main_binary_name, "-fs", "HFS+",
   "-srcfolder", renderPath (temp_dir s)]

/-- Source lines 30-35: whether no already-produced bundle descriptor
carries the macOS application-bundle tag. -/
def needs_app_bundle (bundles : List Bundle) : Bool :=
  decide ((bundles.filter fun b =>
    decide (b.package_type = PackageType.MacOsBundle)).length = 0)

/-- Source lines 192-195: the optional signing step
(`if let Some(identity) = &settings.macos().signing_identity`). -/
def step_sign (s : Settings) (w : World) : Except Err (List Path) × List Event :=
  match s.signing_identity with
  | some identity =>
    match w.signErr with
    | some e => (Except.error e, [Event.sign (dmg_path s) identity s false])
    | none => (Except.ok [dmg_path s], [Event.sign (dmg_path s) identity s false])
  | none => (Except.ok [dmg_path s], [])

/-- Source line 190: `fs::rename(bundle_dir.join(dmg_name), dmg_path.clone())?`
(note: a plain question mark, no context). -/
def step_rename (s : Settings) (w : World) : Except Err (List Path) × List Event :=
  match w.renameErr with
  | some e => (Except.error e, [Event.rename (bundle_dir s ++ [dmg_name s]) (dmg_path s)])
  | none =>
    ((step_sign s w).1,
     Event.rename (bundle_dir s ++ [dmg_name s]) (dmg_path s) :: (step_sign s w).2)

/-- Source lines 164-180: the hdiutil invocation.  `Command::output()` fails
only when the process cannot be launched; when the process runs, its
captured `Output` (exit status included) is discarded by the source, so the
pipeline continues whatever the exit code was. -/
def step_hdiutil (s : Settings) (w : World) : Except Err (List Path) × List Event :=
  match w.hdiutilLaunchErr with
  | some e =>
    (Except.error (Err.context "Error creating DMG for macOS" e),
     [Event.runProcess "hdiutil" (bundle_dir s) (hdiutil_args s) true true])
  | none =>
    ((step_rename s w).1,
     Event.runProcess "hdiutil" (bundle_dir s) (hdiutil_args s) true true
       :: (step_rename s w).2)

/-- Source lines 152-156: the five debug prints. -/
def step_print (s : Settings) (w : World) : Except Err (List Path) × List Event :=
  ((step_hdiutil s w).1,
   Event.printDebug (bundle_dir s) (output_path s) (dmg_name s) s.main_binary_name
       (bundle_file_name s)
     :: (step_hdiutil s w).2)

/-- Source lines 144-150: the CI environment check; its body is commented
out, so both branches perform no operation. -/
def step_ci (s : Settings) (w : World) : Except Err (List Path) × List Event :=
  match w.ciVar with
  | some value => if value = "true" then step_print s w else step_print s w
  | none => step_print s w

/-- Source lines 133-142: the license check; its body is commented out, so
both branches perform no operation. -/
def step_license (s : Settings) (w : World) : Except Err (List Path) × List Event :=
  match s.license with
  | some _l => step_ci s w
  | none => step_ci s w

/-- Source lines 125-131: icon synthesis (`create_icns_file(&temp_dir,
settings)?`, a bare question mark) and, when a path comes back, the copy to
the fixed hidden volume-icon name. -/
def step_icns (s : Settings) (w : World) : Except Err (List Path) × List Event :=
  match w.icnsErr with
  | some e => (Except.error e, [Event.createIcns (temp_dir s)])
  | none =>
    match w.icnsPath with
    | some icon =>
      match w.copyIconErr with
      | some e =>
        (Except.error (Err.context "Failed to create the DMG volume icon" e),
         [Event.createIcns (temp_dir s),
          Event.copyFile icon (temp_dir s ++ [".VolumeIcon.icns"])])
      | none =>
        ((step_license s w).1,
         Event.createIcns (temp_dir s)
           :: Event.copyFile icon (temp_dir s ++ [".VolumeIcon.icns"])
           :: (step_license s w).2)
    | none =>
      ((step_license s w).1, Event.createIcns (temp_dir s) :: (step_license s w).2)

/-- Source lines 93-96: `write(support_dir.join("eula-resources-template.xml"),
...)?` (a bare question mark). -/
def step_write_eula (s : Settings) (w : World) : Except Err (List Path) × List Event :=
  match w.writeEulaErr with
  | some e => (Except.error e, [Event.writeFile (support_dir s ++ ["eula-resources-template.xml"])])
  | none =>
    ((step_icns s w).1,
     Event.writeFile (support_dir s ++ ["eula-resources-template.xml"]) :: (step_icns s w).2)

/-- Source lines 74-78: the recursive copy of the application bundle into
the staging directory, with context. -/
def step_copy_app (s : Settings) (w : World) : Except Err (List Path) × List Event :=
  match w.copyAppErr with
  | some e =>
    (Except.error (Err.context "Failed to copy .app to temp folder to create DMG" e),
     [Event.copyDir (bundle_dir s ++ [bundle_file_name s]) (temp_dir s ++ [bundle_file_name s])])
  | none =>
    ((step_write_eula s w).1,
     Event.copyDir (bundle_dir s ++ [bundle_file_name s]) (temp_dir s ++ [bundle_file_name s])
       :: (step_write_eula s w).2)

/-- Source lines 69-71: creation of the support subdirectory, with context. -/
def step_create_support (s : Settings) (w : World) : Except Err (List Path) × List Event :=
  match w.createSupportErr with
  | some e =>
    (Except.error (Err.context
        ("Failed to create support directory at " ++ renderPath (support_dir s)) e),
     [Event.createDirAll (support_dir s)])
  | none =>
    ((step_copy_app s w).1, Event.createDirAll (support_dir s) :: (step_copy_app s w).2)

/-- Source lines 65-67: creation of the staging directory, with context. -/
def step_create_temp (s : Settings) (w : World) : Except Err (List Path) × List Event :=
  match w.createTempErr with
  | some e =>
    (Except.error (Err.context
        ("Failed to create temporary directory at " ++ renderPath (temp_dir s)) e),
     [Event.createDirAll (temp_dir s)])
  | none =>
    ((step_create_support s w).1,
     Event.createDirAll (temp_dir s) :: (step_create_support s w).2)

/-- Source lines 59-62: pre-clean of the output directory from a previous
run, with context. -/
def step_clean_old (s : Settings) (w : World) : Except Err (List Path) × List Event :=
  if w.outputPathExists then
    match w.removeOldErr with
    | some e =>
      (Except.error (Err.context ("Failed to remove old " ++ dmg_name s) e),
       [Event.removeDirAll (output_path s)])
    | none =>
      ((step_create_temp s w).1,
       Event.removeDirAll (output_path s) :: (step_create_temp s w).2)
  else step_create_temp s w

/-- Source line 57: the `info!` log line, emitted before the pre-clean. -/
def step_log (s : Settings) (w : World) : Except Err (List Path) × List Event :=
  ((step_clean_old s w).1,
   Event.logInfo (dmg_name s) (dmg_path s) :: (step_clean_old s w).2)

/-- Source lines 28-197: the whole pipeline.  Lines 30-37 invoke the
application-bundle builder when no descriptor carries the macOS tag,
propagating its error bare. -/
def bundle_project (s : Settings) (bundles : List Bundle) (w : World) :
    Except Err (List Path) × List Event :=
  if needs_app_bundle bundles then
    match w.buildAppErr with
    | some e => (Except.error e, [Event.buildApp s])
    | none => ((step_log s w).1, Event.buildApp s :: (step_log s w).2)
  else ((step_log s w).1, (step_log s w).2)

/-- The trace of the signing step when it is reached and succeeds. -/
def sign_trace (s : Settings) : List Event :=
  match s.signing_identity with
  | some identity => [Event.sign (dmg_path s) identity s false]
  | none => []

/-- The trace from the relocation step onward in a fully successful run. -/
def rename_trace (s : Settings) : List Event :=
  Event.rename (bundle_dir s ++ [dmg_name s]) (dmg_path s) :: sign_trace s

/-- The trace from the compiler invocation onward in a fully successful run. -/
def hdiutil_trace (s : Settings) : List Event :=
  Event.runProcess "hdiutil" (bundle_dir s) (hdiutil_args s) true true :: rename_trace s

/-- The trace from the debug prints onward in a fully successful run. -/
def print_trace (s : Settings) : List Event :=
  Event.printDebug (bundle_dir s) (output_path s) (dmg_name s) s.main_binary_name
      (bundle_file_name s)
    :: hdiutil_trace s

/-- The trace from the icon step onward in a fully successful run. -/
def icns_trace (s : Settings) (w : World) : List Event :=
  Event.createIcns (temp_dir s)
    :: ((match w.icnsPath with
         | some icon => [Event.copyFile icon (temp_dir s ++ [".VolumeIcon.icns"])]
         | none => []) ++ print_trace s)

/-- The trace from the license-template write onward in a fully successful run. -/
def eula_trace (s : Settings) (w : World) : List Event :=
  Event.writeFile (support_dir s ++ ["eula-resources-template.xml"]) :: icns_trace s w

/-- The trace from the application-bundle copy onward in a fully successful run. -/
def copy_app_trace (s : Settings) (w : World) : List Event :=
  Event.copyDir (bundle_dir s ++ [bundle_file_name s]) (temp_dir s ++ [bundle_file_name s])
    :: eula_trace s w

/-- The trace from the support-directory creation onward in a fully successful run. -/
def support_trace (s : Settings) (w : World) : List Event :=
  Event.createDirAll (support_dir s) :: copy_app_trace s w

/-- The trace from the staging-directory creation onward in a fully successful run. -/
def tempdir_trace (s : Settings) (w : World) : List Event :=
  Event.createDirAll (temp_dir s) :: support_trace s w

/-- The trace from the pre-clean onward in a fully successful run. -/
def clean_trace (s : Settings) (w : World) : List Event :=
  (if w.outputPathExists then [Event.removeDirAll (output_path s)] else [])
    ++ tempdir_trace s w

/-- The trace from the log line onward in a fully successful run. -/
def log_trace (s : Settings) (w : World) : List Event :=
  Event.logInfo (dmg_name s) (dmg_path s) :: clean_trace s w

/-- The complete trace of a fully successful run. -/
def successTrace (s : Settings) (bundles : List Bundle) (w : World) : List Event :=
  (if needs_app_bundle bundles then [Event.buildApp s] else []) ++ log_trace s w

/-- Whether `p` is strictly below the directory `dir`. -/
def isUnder (dir p : Path) : Bool := dir.isPrefixOf p && decide (dir ≠ p)

/-- Modelled from the spec: the effect of one pipeline event on an abstract
filesystem, a list of the files currently on disk.  The core's own calls
follow the documented std semantics (`remove_dir_all` deletes everything
below the directory, `copy_dir` deep-copies the source tree, `fs::copy` and
`write` create their destination file, `fs::rename` moves a file); the
external collaborators' effects come from the oracle (the files the
application-bundle builder and the icon generator write), and the disk-image
compiler deposits its output file, named by its second argument, relative to
its working directory (spec section 4.6). -/
def applyEvent (w : World) (files : List Path) : Event → List Path
  | Event.buildApp _ => w.buildAppFiles ++ files
  | Event.logInfo _ _ => files
  | Event.removeDirAll p => files.filter fun f => !(isUnder p f)
  | Event.createDirAll _ => files
  | Event.copyDir _ dst => (w.appBundleFiles.map fun rel => dst ++ rel) ++ files
  | Event.writeFile p => p :: files
  | Event.createIcns _ => w.icnsFiles ++ files
  | Event.copyFile _ dst => dst :: files
  | Event.printDebug _ _ _ _ _ => files
  | Event.runProcess _ cwd args _ _ =>
    match args with
    | _ :: outName :: _ => (cwd ++ [outName]) :: files
    | _ => files
  | Event.rename src dst => dst :: files.filter fun f => decide (f ≠ src)
  | Event.sign _ _ _ _ => files

/-- Runs a trace of events over an initial abstract filesystem. -/
def runTrace (w : World) (files : List Path) (trace : List Event) : List Path :=
  trace.foldl (applyEvent w) files

/-- The success conditions of one run: every fallible operation the run
actually reaches succeeds. -/
def AllOk (s : Settings) (bundles : List Bundle) (w : World) : Prop :=
  (needs_app_bundle bundles = true → w.buildAppErr = none) ∧
  (w.outputPathExists = true → w.removeOldErr = none) ∧
  w.createTempErr = none ∧
  w.createSupportErr = none ∧
  w.copyAppErr = none ∧
  w.writeEulaErr = none ∧
  w.icnsErr = none ∧
  (∀ p, w.icnsPath = some p → w.copyIconErr = none) ∧
  w.hdiutilLaunchErr = none ∧
  w.renameErr = none ∧
  (∀ i, s.signing_identity = some i → w.signErr = none)

/-- Replaces the license path of a configuration, keeping every other field. -/
def setLicense (s : Settings) (l : Option String) : Settings :=
  ⟨s.project_out_directory, s.main_binary_name, s.version_string, s.binary_arch,
   l, s.signing_identity⟩

/-- Replaces the CI environment variable of an oracle, keeping every other
field. -/
def setCi (w : World) (c : Option String) : World :=
  ⟨w.buildAppErr, w.buildAppFiles, w.outputPathExists, w.removeOldErr,
   w.createTempErr, w.createSupportErr, w.copyAppErr, w.appBundleFiles,
   w.writeEulaErr, w.icnsErr, w.icnsPath, w.icnsFiles, w.copyIconErr, c,
   w.hdiutilLaunchErr, w.hdiutilOutput, w.renameErr, w.signErr⟩

/-- A sample configuration matching the first scenario of the spec. -/
def sampleSettings : Settings := ⟨["/out"], "app", "1.0.0", "x86_64", none, none⟩

/-- A sample configuration matching the second scenario of the spec. -/
def sampleSettingsArm : Settings := ⟨["/out"], "app", "2.0.0", "aarch64", none, none⟩

/-- An oracle in which every operation succeeds: the output directory from a
previous run exists and is removable, the app bundle holds one file, the
icon generator produces an icon inside the staging directory, hdiutil
launches and exits zero, and no signing identity is involved. -/
def sampleWorld : World :=
  ⟨none, [["/out", "bundle", "macos", "app.app", "Contents", "MacOS", "app"]],
   true, none, none, none, none, [["Contents", "MacOS", "app"]], none, none,
   some ["/out", "bundle", "dmg", "temp", "icon.icns"],
   [["/out", "bundle", "dmg", "temp", "icon.icns"]], none, none, none,
   ⟨0, "", ""⟩, none, none⟩

/-- The all-success oracle, except that hdiutil runs and exits with code 1. -/
def sampleWorldBadExit : World :=
  ⟨none, [["/out", "bundle", "macos", "app.app", "Contents", "MacOS", "app"]],
   true, none, none, none, none, [["Contents", "MacOS", "app"]], none, none,
   some ["/out", "bundle", "dmg", "temp", "icon.icns"],
   [["/out", "bundle", "dmg", "temp", "icon.icns"]], none, none, none,
   ⟨1, "", ""⟩, none, none⟩

/-- The all-success oracle, except that the relocation rename fails. -/
def sampleWorldRenameFail : World :=
  ⟨none, [["/out", "bundle", "macos", "app.app", "Contents", "MacOS", "app"]],
   true, none, none, none, none, [["Contents", "MacOS", "app"]], none, none,
   some ["/out", "bundle", "dmg", "temp", "icon.icns"],
   [["/out", "bundle", "dmg", "temp", "icon.icns"]], none, none, none,
   ⟨0, "", ""⟩, some (Err.io "cross-device rename refused"), none⟩

/-- A configuration with a signing identity configured. -/
def sampleSettingsSigned : Settings :=
  ⟨["/out"], "app", "1.0.0", "x86_64", none, some "Developer ID Application"⟩

/-- The all-success oracle, except that the pre-clean removal fails. -/
def sampleWorldRemoveFail : World :=
  ⟨none, [["/out", "bundle", "macos", "app.app", "Contents", "MacOS", "app"]],
   true, some (Err.io "permission denied"), none, none, none,
   [["Contents", "MacOS", "app"]], none, none,
   some ["/out", "bundle", "dmg", "temp", "icon.icns"],
   [["/out", "bundle", "dmg", "temp", "icon.icns"]], none, none, none,
   ⟨0, "", ""⟩, none, none⟩

/-- The all-success oracle, except that the application-bundle builder fails. -/
def sampleWorldBuildFail : World :=
  ⟨some (Err.io "cargo build failed"),
   [], true, none, none, none, none,
   [["Contents", "MacOS", "app"]], none, none,
   some ["/out", "bundle", "dmg", "temp", "icon.icns"],
   [["/out", "bundle", "dmg", "temp", "icon.icns"]], none, none, none,
   ⟨0, "", ""⟩, none, none⟩

/-- The all-success oracle, except that the staging copy of the application
bundle fails. -/
def sampleWorldCopyFail : World :=
  ⟨none, [["/out", "bundle", "macos", "app.app", "Contents", "MacOS", "app"]],
   true, none, none, none, some (Err.io "no such file or directory"),
   [["Contents", "MacOS", "app"]], none, none,
   some ["/out", "bundle", "dmg", "temp", "icon.icns"],
   [["/out", "bundle", "dmg", "temp", "icon.icns"]], none, none, none,
   ⟨0, "", ""⟩, none, none⟩

/-- The all-success oracle, except that the icon generator fails. -/
def sampleWorldIcnsFail : World :=
  ⟨none, [["/out", "bundle", "macos", "app.app", "Contents", "MacOS", "app"]],
   true, none, none, none, none,
   [["Contents", "MacOS", "app"]], none, some (Err.io "bad png"), none,
   [], none, none, none, ⟨0, "", ""⟩, none, none⟩

/-- The all-success oracle, except that the copy of the generated icon into
the staging directory fails. -/
def sampleWorldIconCopyFail : World :=
  ⟨none, [["/out", "bundle", "macos", "app.app", "Contents", "MacOS", "app"]],
   true, none, none, none, none,
   [["Contents", "MacOS", "app"]], none, none,
   some ["/out", "bundle", "dmg", "temp", "icon.icns"],
   [["/out", "bundle", "dmg", "temp", "icon.icns"]],
   some (Err.io "disk full"), none, none, ⟨0, "", ""⟩, none, none⟩

/-- The all-success oracle, except that the signer fails. -/
def sampleWorldSignFail : World :=
  ⟨none, [["/out", "bundle", "macos", "app.app", "Contents", "MacOS", "app"]],
   true, none, none, none, none,
   [["Contents", "MacOS", "app"]], none, none,
   some ["/out", "bundle", "dmg", "temp", "icon.icns"],
   [["/out", "bundle", "dmg", "temp", "icon.icns"]], none, none, none,
   ⟨0, "", ""⟩, none, some (Err.io "signing identity not found")⟩

/-- The all-success oracle, except that the launch of hdiutil fails. -/
def sampleWorldLaunchFail : World :=
  ⟨none, [["/out", "bundle", "macos", "app.app", "Contents", "MacOS", "app"]],
   true, none, none, none, none,
   [["Contents", "MacOS", "app"]], none, none,
   some ["/out", "bundle", "dmg", "temp", "icon.icns"],
   [["/out", "bundle", "dmg", "temp", "icon.icns"]], none, none,
   some (Err.io "hdiutil not found"), ⟨0, "", ""⟩, none, none⟩

/-! Helper lemmas: the two no-op branches, result passthrough along the
pipeline, and the characterization of fully successful runs. -/

theorem license_skip (s : Settings) (w : World) : step_license s w = step_ci s w := by
  cases h : s.license <;> simp [step_license, h]

theorem ci_skip (s : Settings) (w : World) : step_ci s w = step_print s w := by
  cases h : w.ciVar <;> simp [step_ci, h]

theorem res_log (s : Settings) (w : World) :
    (step_log s w).1 = (step_clean_old s w).1 := rfl

theorem res_print (s : Settings) (w : World) :
    (step_print s w).1 = (step_hdiutil s w).1 := rfl

theorem res_bundle (s : Settings) (bundles : List Bundle) (w : World)
    (h : needs_app_bundle bundles = true → w.buildAppErr = none) :
    (bundle_project s bundles w).1 = (step_log s w).1 := by
  cases hn : needs_app_bundle bundles
  · simp [bundle_project, hn]
  · simp [bundle_project, hn, h hn]

theorem res_clean (s : Settings) (w : World)
    (h : w.outputPathExists = true → w.removeOldErr = none) :
    (step_clean_old s w).1 = (step_create_temp s w).1 := by
  cases he : w.outputPathExists
  · simp [step_clean_old, he]
  · simp [step_clean_old, he, h he]

theorem res_temp (s : Settings) (w : World) (h : w.createTempErr = none) :
    (step_create_temp s w).1 = (step_create_support s w).1 := by
  simp [step_create_temp, h]

theorem res_support (s : Settings) (w : World) (h : w.createSupportErr = none) :
    (step_create_support s w).1 = (step_copy_app s w).1 := by
  simp [step_create_support, h]

theorem res_copy (s : Settings) (w : World) (h : w.copyAppErr = none) :
    (step_copy_app s w).1 = (step_write_eula s w).1 := by
  simp [step_copy_app, h]

theorem res_eula (s : Settings) (w : World) (h : w.writeEulaErr = none) :
    (step_write_eula s w).1 = (step_icns s w).1 := by
  simp [step_write_eula, h]

theorem res_icns (s : Settings) (w : World) (h1 : w.icnsErr = none)
    (h2 : ∀ p, w.icnsPath = some p → w.copyIconErr = none) :
    (step_icns s w).1 = (step_license s w).1 := by
  cases hp : w.icnsPath
  · simp [step_icns, h1, hp]
  · simp [step_icns, h1, hp, h2 _ hp]

theorem res_hdiutil (s : Settings) (w : World) (h : w.hdiutilLaunchErr = none) :
    (step_hdiutil s w).1 = (step_rename s w).1 := by
  simp [step_hdiutil, h]

theorem res_rename (s : Settings) (w : World) (h : w.renameErr = none) :
    (step_rename s w).1 = (step_sign s w).1 := by
  simp [step_rename, h]

theorem res_sign (s : Settings) (w : World)
    (h : ∀ i, s.signing_identity = some i → w.signErr = none) :
    (step_sign s w).1 = Except.ok [dmg_path s] := by
  cases hid : s.signing_identity
  · simp [step_sign, hid]
  · simp [step_sign, hid, h _ hid]

theorem allok_run (s : Settings) (bundles : List Bundle) (w : World)
    (h : AllOk s bundles w) :
    (bundle_project s bundles w).1 = Except.ok [dmg_path s] := by
  obtain ⟨h1, h2, h3, h4, h5, h6, h7, h8, h9, h10, h11⟩ := h
  rw [res_bundle s bundles w h1, res_log, res_clean s w h2, res_temp s w h3,
    res_support s w h4, res_copy s w h5, res_eula s w h6, res_icns s w h7 h8,
    license_skip, ci_skip, res_print, res_hdiutil s w h9, res_rename s w h10,
    res_sign s w h11]

theorem ok_sign (s : Settings) (w : World) (l : List Path)
    (h : (step_sign s w).1 = Except.ok l) :
    l = [dmg_path s] ∧ (step_sign s w).2 = sign_trace s ∧
      (∀ i, s.signing_identity = some i → w.signErr = none) := by
  cases hid : s.signing_identity with
  | none =>
    simp [step_sign, hid] at h
    simp [step_sign, sign_trace, hid, h]
  | some i =>
    cases hse : w.signErr with
    | none =>
      simp [step_sign, hid, hse] at h
      simp [step_sign, sign_trace, hid, hse, h]
    | some e => simp [step_sign, hid, hse] at h

theorem ok_rename (s : Settings) (w : World) (l : List Path)
    (h : (step_rename s w).1 = Except.ok l) :
    l = [dmg_path s] ∧ (step_rename s w).2 = rename_trace s ∧
      w.renameErr = none ∧
      (∀ i, s.signing_identity = some i → w.signErr = none) := by
  cases hr : w.renameErr with
  | none =>
    rw [res_rename s w hr] at h
    obtain ⟨hl, ht, hs⟩ := ok_sign s w l h
    refine ⟨hl, ?_, rfl, hs⟩
    simp [step_rename, rename_trace, hr, ht]
  | some e => simp [step_rename, hr] at h

theorem ok_hdiutil (s : Settings) (w : World) (l : List Path)
    (h : (step_hdiutil s w).1 = Except.ok l) :
    l = [dmg_path s] ∧ (step_hdiutil s w).2 = hdiutil_trace s ∧
      w.hdiutilLaunchErr = none ∧ w.renameErr = none ∧
      (∀ i, s.signing_identity = some i → w.signErr = none) := by
  cases hh : w.hdiutilLaunchErr with
  | none =>
    rw [res_hdiutil s w hh] at h
    obtain ⟨hl, ht, hr, hs⟩ := ok_rename s w l h
    refine ⟨hl, ?_, rfl, hr, hs⟩
    simp [step_hdiutil, hdiutil_trace, hh, ht]
  | some e => simp [step_hdiutil, hh] at h

theorem ok_print (s : Settings) (w : World) (l : List Path)
    (h : (step_print s w).1 = Except.ok l) :
    l = [dmg_path s] ∧ (step_print s w).2 = print_trace s ∧
      w.hdiutilLaunchErr = none ∧ w.renameErr = none ∧
      (∀ i, s.signing_identity = some i → w.signErr = none) := by
  rw [res_print] at h
  obtain ⟨hl, ht, hh, hr, hs⟩ := ok_hdiutil s w l h
  exact ⟨hl, by simp [step_print, print_trace, ht], hh, hr, hs⟩

theorem ok_icns (s : Settings) (w : World) (l : List Path)
    (h : (step_icns s w).1 = Except.ok l) :
    l = [dmg_path s] ∧ (step_icns s w).2 = icns_trace s w ∧
      w.icnsErr = none ∧ (∀ p, w.icnsPath = some p → w.copyIconErr = none) ∧
      w.hdiutilLaunchErr = none ∧ w.renameErr = none ∧
      (∀ i, s.signing_identity = some i → w.signErr = none) := by
  cases hi : w.icnsErr with
  | some e => simp [step_icns, hi] at h
  | none =>
    cases hp : w.icnsPath with
    | none =>
      have h' : (step_print s w).1 = Except.ok l := by
        rw [← ci_skip, ← license_skip, ← res_icns s w hi (by simp [hp])]
        exact h
      obtain ⟨hl, ht, hh, hr, hs⟩ := ok_print s w l h'
      refine ⟨hl, ?_, rfl, by simp [hp], hh, hr, hs⟩
      simp [step_icns, icns_trace, hi, hp, license_skip, ci_skip, ht]
    | some icon =>
      cases hc : w.copyIconErr with
      | some e => simp [step_icns, hi, hp, hc] at h
      | none =>
        have h' : (step_print s w).1 = Except.ok l := by
          rw [← ci_skip, ← license_skip, ← res_icns s w hi (fun _ _ => by simp [hc])]
          exact h
        obtain ⟨hl, ht, hh, hr, hs⟩ := ok_print s w l h'
        refine ⟨hl, ?_, rfl, fun _ _ => rfl, hh, hr, hs⟩
        simp [step_icns, icns_trace, hi, hp, hc, license_skip, ci_skip, ht]

theorem ok_eula (s : Settings) (w : World) (l : List Path)
    (h : (step_write_eula s w).1 = Except.ok l) :
    l = [dmg_path s] ∧ (step_write_eula s w).2 = eula_trace s w ∧
      w.writeEulaErr = none ∧
      w.icnsErr = none ∧ (∀ p, w.icnsPath = some p → w.copyIconErr = none) ∧
      w.hdiutilLaunchErr = none ∧ w.renameErr = none ∧
      (∀ i, s.signing_identity = some i → w.signErr = none) := by
  cases he : w.writeEulaErr with
  | some e => simp [step_write_eula, he] at h
  | none =>
    rw [res_eula s w he] at h
    obtain ⟨hl, ht, hfacts⟩ := ok_icns s w l h
    exact ⟨hl, by simp [step_write_eula, eula_trace, he, ht], rfl, hfacts⟩

theorem ok_copy_app (s : Settings) (w : World) (l : List Path)
    (h : (step_copy_app s w).1 = Except.ok l) :
    l = [dmg_path s] ∧ (step_copy_app s w).2 = copy_app_trace s w ∧
      w.copyAppErr = none ∧ w.writeEulaErr = none ∧
      w.icnsErr = none ∧ (∀ p, w.icnsPath = some p → w.copyIconErr = none) ∧
      w.hdiutilLaunchErr = none ∧ w.renameErr = none ∧
      (∀ i, s.signing_identity = some i → w.signErr = none) := by
  cases hc : w.copyAppErr with
  | some e => simp [step_copy_app, hc] at h
  | none =>
    rw [res_copy s w hc] at h
    obtain ⟨hl, ht, hfacts⟩ := ok_eula s w l h
    exact ⟨hl, by simp [step_copy_app, copy_app_trace, hc, ht], rfl, hfacts⟩

theorem ok_support (s : Settings) (w : World) (l : List Path)
    (h : (step_create_support s w).1 = Except.ok l) :
    l = [dmg_path s] ∧ (step_create_support s w).2 = support_trace s w ∧
      w.createSupportErr = none ∧ w.copyAppErr = none ∧ w.writeEulaErr = none ∧
      w.icnsErr = none ∧ (∀ p, w.icnsPath = some p → w.copyIconErr = none) ∧
      w.hdiutilLaunchErr = none ∧ w.renameErr = none ∧
      (∀ i, s.signing_identity = some i → w.signErr = none) := by
  cases hs : w.createSupportErr with
  | some e => simp [step_create_support, hs] at h
  | none =>
    rw [res_support s w hs] at h
    obtain ⟨hl, ht, hfacts⟩ := ok_copy_app s w l h
    exact ⟨hl, by simp [step_create_support, support_trace, hs, ht], rfl, hfacts⟩

theorem ok_temp (s : Settings) (w : World) (l : List Path)
    (h : (step_create_temp s w).1 = Except.ok l) :
    l = [dmg_path s] ∧ (step_create_temp s w).2 = tempdir_trace s w ∧
      w.createTempErr = none ∧
      w.createSupportErr = none ∧ w.copyAppErr = none ∧ w.writeEulaErr = none ∧
      w.icnsErr = none ∧ (∀ p, w.icnsPath = some p → w.copyIconErr = none) ∧
      w.hdiutilLaunchErr = none ∧ w.renameErr = none ∧
      (∀ i, s.signing_identity = some i → w.signErr = none) := by
  cases ht' : w.createTempErr with
  | some e => simp [step_create_temp, ht'] at h
  | none =>
    rw [res_temp s w ht'] at h
    obtain ⟨hl, ht, hfacts⟩ := ok_support s w l h
    exact ⟨hl, by simp [step_create_temp, tempdir_trace, ht', ht], rfl, hfacts⟩

theorem ok_clean (s : Settings) (w : World) (l : List Path)
    (h : (step_clean_old s w).1 = Except.ok l) :
    l = [dmg_path s] ∧ (step_clean_old s w).2 = clean_trace s w ∧
      (w.outputPathExists = true → w.removeOldErr = none) ∧
      w.createTempErr = none ∧
      w.createSupportErr = none ∧ w.copyAppErr = none ∧ w.writeEulaErr = none ∧
      w.icnsErr = none ∧ (∀ p, w.icnsPath = some p → w.copyIconErr = none) ∧
      w.hdiutilLaunchErr = none ∧ w.renameErr = none ∧
      (∀ i, s.signing_identity = some i → w.signErr = none) := by
  cases he : w.outputPathExists with
  | false =>
    have h' : (step_create_temp s w).1 = Except.ok l := by
      rw [← res_clean s w (by simp [he])]; exact h
    obtain ⟨hl, ht, hfacts⟩ := ok_temp s w l h'
    refine ⟨hl, ?_, by simp [he], hfacts⟩
    simp [step_clean_old, clean_trace, he, ht]
  | true =>
    cases hr : w.removeOldErr with
    | some e => simp [step_clean_old, he, hr] at h
    | none =>
      have h' : (step_create_temp s w).1 = Except.ok l := by
        rw [← res_clean s w (fun _ => by simp [hr])]; exact h
      obtain ⟨hl, ht, hfacts⟩ := ok_temp s w l h'
      refine ⟨hl, ?_, fun _ => rfl, hfacts⟩
      simp [step_clean_old, clean_trace, he, hr, ht]

theorem ok_log (s : Settings) (w : World) (l : List Path)
    (h : (step_log s w).1 = Except.ok l) :
    l = [dmg_path s] ∧ (step_log s w).2 = log_trace s w ∧
      (w.outputPathExists = true → w.removeOldErr = none) ∧
      w.createTempErr = none ∧
      w.createSupportErr = none ∧ w.copyAppErr = none ∧ w.writeEulaErr = none ∧
      w.icnsErr = none ∧ (∀ p, w.icnsPath = some p → w.copyIconErr = none) ∧
      w.hdiutilLaunchErr = none ∧ w.renameErr = none ∧
      (∀ i, s.signing_identity = some i → w.signErr = none) := by
  rw [res_log] at h
  obtain ⟨hl, ht, hfacts⟩ := ok_clean s w l h
  exact ⟨hl, by simp [step_log, log_trace, ht], hfacts⟩

theorem ok_bundle (s : Settings) (bundles : List Bundle) (w : World) (l : List Path)
    (h : (bundle_project s bundles w).1 = Except.ok l) :
    l = [dmg_path s] ∧ (bundle_project s bundles w).2 = successTrace s bundles w ∧
      AllOk s bundles w := by
  cases hn : needs_app_bundle bundles with
  | false =>
    have h' : (step_log s w).1 = Except.ok l := by
      rw [← res_bundle s bundles w (by simp [hn])]; exact h
    obtain ⟨hl, ht, hfacts⟩ := ok_log s w l h'
    refine ⟨hl, ?_, by simp [hn], hfacts⟩
    simp [bundle_project, successTrace, hn, ht]
  | true =>
    cases hb : w.buildAppErr with
    | some e => simp [bundle_project, hn, hb] at h
    | none =>
      have h' : (step_log s w).1 = Except.ok l := by
        rw [← res_bundle s bundles w (fun _ => hb)]; exact h
      obtain ⟨hl, ht, hfacts⟩ := ok_log s w l h'
      refine ⟨hl, ?_, fun _ => hb, hfacts⟩
      simp [bundle_project, successTrace, hn, hb, ht]

/-! Helper lemmas: every event of any run, failing or not, is among the
events of the fully successful trace of the same oracle. -/

theorem mem_sign (s : Settings) (w : World) (e : Event)
    (h : e ∈ (step_sign s w).2) : e ∈ sign_trace s := by
  cases hid : s.signing_identity with
  | none => simp [step_sign, hid] at h
  | some i =>
    cases hse : w.signErr with
    | none => simp [step_sign, hid, hse] at h; simp [sign_trace, hid, h]
    | some e' => simp [step_sign, hid, hse] at h; simp [sign_trace, hid, h]

theorem mem_rename (s : Settings) (w : World) (e : Event)
    (h : e ∈ (step_rename s w).2) : e ∈ rename_trace s := by
  cases hr : w.renameErr with
  | some e' => simp [step_rename, hr] at h; simp [rename_trace, h]
  | none =>
    simp [step_rename, hr] at h
    rcases h with h | h
    · simp [rename_trace, h]
    · exact List.mem_cons_of_mem _ (mem_sign s w e h)

theorem mem_hdiutil (s : Settings) (w : World) (e : Event)
    (h : e ∈ (step_hdiutil s w).2) : e ∈ hdiutil_trace s := by
  cases hh : w.hdiutilLaunchErr with
  | some e' => simp [step_hdiutil, hh] at h; simp [hdiutil_trace, h]
  | none =>
    simp [step_hdiutil, hh] at h
    rcases h with h | h
    · simp [hdiutil_trace, h]
    · exact List.mem_cons_of_mem _ (mem_rename s w e h)

theorem mem_print (s : Settings) (w : World) (e : Event)
    (h : e ∈ (step_print s w).2) : e ∈ print_trace s := by
  simp [step_print] at h
  rcases h with h | h
  · simp [print_trace, h]
  · exact List.mem_cons_of_mem _ (mem_hdiutil s w e h)

theorem mem_icns (s : Settings) (w : World) (e : Event)
    (h : e ∈ (step_icns s w).2) : e ∈ icns_trace s w := by
  cases hi : w.icnsErr with
  | some e' => simp [step_icns, hi] at h; simp [icns_trace, h]
  | none =>
    cases hp : w.icnsPath with
    | none =>
      simp [step_icns, hi, hp, license_skip, ci_skip] at h
      rcases h with h | h
      · simp [icns_trace, h]
      · simp only [icns_trace, hp, List.nil_append]
        exact List.mem_cons_of_mem _ (mem_print s w e h)
    | some icon =>
      cases hc : w.copyIconErr with
      | some e' =>
        simp [step_icns, hi, hp, hc] at h
        rcases h with h | h <;> simp [icns_trace, hp, h]
      | none =>
        simp [step_icns, hi, hp, hc, license_skip, ci_skip] at h
        rcases h with h | h | h
        · simp [icns_trace, hp, h]
        · simp [icns_trace, hp, h]
        · simp only [icns_trace, hp, List.singleton_append]
          exact List.mem_cons_of_mem _ (List.mem_cons_of_mem _ (mem_print s w e h))

theorem mem_eula (s : Settings) (w : World) (e : Event)
    (h : e ∈ (step_write_eula s w).2) : e ∈ eula_trace s w := by
  cases he : w.writeEulaErr with
  | some e' => simp [step_write_eula, he] at h; simp [eula_trace, h]
  | none =>
    simp [step_write_eula, he] at h
    rcases h with h | h
    · simp [eula_trace, h]
    · exact List.mem_cons_of_mem _ (mem_icns s w e h)

theorem mem_copy_app (s : Settings) (w : World) (e : Event)
    (h : e ∈ (step_copy_app s w).2) : e ∈ copy_app_trace s w := by
  cases hc : w.copyAppErr with
  | some e' => simp [step_copy_app, hc] at h; simp [copy_app_trace, h]
  | none =>
    simp [step_copy_app, hc] at h
    rcases h with h | h
    · simp [copy_app_trace, h]
    · exact List.mem_cons_of_mem _ (mem_eula s w e h)

theorem mem_support (s : Settings) (w : World) (e : Event)
    (h : e ∈ (step_create_support s w).2) : e ∈ support_trace s w := by
  cases hs : w.createSupportErr with
  | some e' => simp [step_create_support, hs] at h; simp [support_trace, h]
  | none =>
    simp [step_create_support, hs] at h
    rcases h with h | h
    · simp [support_trace, h]
    · exact List.mem_cons_of_mem _ (mem_copy_app s w e h)

theorem mem_temp (s : Settings) (w : World) (e : Event)
    (h : e ∈ (step_create_temp s w).2) : e ∈ tempdir_trace s w := by
  cases ht : w.createTempErr with
  | some e' => simp [step_create_temp, ht] at h; simp [tempdir_trace, h]
  | none =>
    simp [step_create_temp, ht] at h
    rcases h with h | h
    · simp [tempdir_trace, h]
    · exact List.mem_cons_of_mem _ (mem_support s w e h)

theorem mem_clean (s : Settings) (w : World) (e : Event)
    (h : e ∈ (step_clean_old s w).2) : e ∈ clean_trace s w := by
  cases he : w.outputPathExists with
  | false =>
    simp [step_clean_old, he] at h
    simp only [clean_trace, he, if_neg Bool.false_ne_true, List.nil_append]
    exact mem_temp s w e h
  | true =>
    cases hr : w.removeOldErr with
    | some e' =>
      simp [step_clean_old, he, hr] at h
      simp [clean_trace, he, h]
    | none =>
      simp [step_clean_old, he, hr] at h
      rcases h with h | h
      · simp [clean_trace, he, h]
      · simp only [clean_trace, he, if_pos rfl, List.singleton_append]
        exact List.mem_cons_of_mem _ (mem_temp s w e h)

theorem mem_log (s : Settings) (w : World) (e : Event)
    (h : e ∈ (step_log s w).2) : e ∈ log_trace s w := by
  simp [step_log] at h
  rcases h with h | h
  · simp [log_trace, h]
  · exact List.mem_cons_of_mem _ (mem_clean s w e h)

theorem mem_bundle (s : Settings) (bundles : List Bundle) (w : World) (e : Event)
    (h : e ∈ (bundle_project s bundles w).2) : e ∈ successTrace s bundles w := by
  cases hn : needs_app_bundle bundles with
  | false =>
    simp [bundle_project, hn] at h
    simp only [successTrace, hn, if_neg Bool.false_ne_true, List.nil_append]
    exact mem_log s w e h
  | true =>
    cases hb : w.buildAppErr with
    | some e' =>
      simp [bundle_project, hn, hb] at h
      simp [successTrace, hn, h]
    | none =>
      simp [bundle_project, hn, hb] at h
      rcases h with h | h
      · simp [successTrace, hn, h]
      · simp only [successTrace, hn, if_pos rfl, List.singleton_append]
        exact List.mem_cons_of_mem _ (mem_log s w e h)

/-! Helper lemmas: which events of each constructor can occur in a trace. -/

theorem runProcess_shape (s : Settings) (bundles : List Bundle) (w : World)
    (n : String) (c : Path) (a : List String) (o p : Bool)
    (h : Event.runProcess n c a o p ∈ (bundle_project s bundles w).2) :
    n = "hdiutil" ∧ c = bundle_dir s ∧ a = hdiutil_args s ∧ o = true ∧ p = true := by
  have h' := mem_bundle s bundles w _ h
  cases hn : needs_app_bundle bundles <;>
    cases he : w.outputPathExists <;>
    rcases hp : w.icnsPath with _ | icon <;>
    rcases hid : s.signing_identity with _ | idt <;>
    simp [successTrace, log_trace, clean_trace, tempdir_trace, support_trace,
      copy_app_trace, eula_trace, icns_trace, print_trace, hdiutil_trace,
      rename_trace, sign_trace, hn, he, hp, hid] at h' <;>
    exact ⟨h'.1, h'.2.1, h'.2.2.1, h'.2.2.2.1, h'.2.2.2.2⟩

theorem buildApp_not_in_log (s : Settings) (w : World) (t : Settings) :
    Event.buildApp t ∉ log_trace s w := by
  intro h
  cases he : w.outputPathExists <;>
    rcases hp : w.icnsPath with _ | icon <;>
    rcases hid : s.signing_identity with _ | idt <;>
    simp [log_trace, clean_trace, tempdir_trace, support_trace,
      copy_app_trace, eula_trace, icns_trace, print_trace, hdiutil_trace,
      rename_trace, sign_trace, he, hp, hid] at h

theorem sign_shape (s : Settings) (bundles : List Bundle) (w : World)
    (p : Path) (i : String) (t : Settings) (d : Bool)
    (h : Event.sign p i t d ∈ (bundle_project s bundles w).2) :
    p = dmg_path s ∧ t = s ∧ d = false ∧ s.signing_identity = some i := by
  have h' := mem_bundle s bundles w _ h
  cases hn : needs_app_bundle bundles <;>
    cases he : w.outputPathExists <;>
    rcases hp : w.icnsPath with _ | icon <;>
    rcases hid : s.signing_identity with _ | idt <;>
    simp [successTrace, log_trace, clean_trace, tempdir_trace, support_trace,
      copy_app_trace, eula_trace, icns_trace, print_trace, hdiutil_trace,
      rename_trace, sign_trace, hn, he, hp, hid] at h' <;>
    exact ⟨h'.1, h'.2.2.1, h'.2.2.2, by rw [h'.2.1]⟩

theorem copyFile_shape (s : Settings) (bundles : List Bundle) (w : World)
    (a b : Path) (h : Event.copyFile a b ∈ (bundle_project s bundles w).2) :
    w.icnsPath = some a ∧ b = temp_dir s ++ [".VolumeIcon.icns"] := by
  have h' := mem_bundle s bundles w _ h
  cases hn : needs_app_bundle bundles <;>
    cases he : w.outputPathExists <;>
    rcases hp : w.icnsPath with _ | icon <;>
    rcases hid : s.signing_identity with _ | idt <;>
    simp [successTrace, log_trace, clean_trace, tempdir_trace, support_trace,
      copy_app_trace, eula_trace, icns_trace, print_trace, hdiutil_trace,
      rename_trace, sign_trace, hn, he, hp, hid] at h' <;>
    simp [hp, h'.1, h'.2]

theorem sign_count (s : Settings) (bundles : List Bundle) (w : World) (i : String)
    (hid : s.signing_identity = some i) :
    (successTrace s bundles w).count (Event.sign (dmg_path s) i s false) = 1 := by
  cases hn : needs_app_bundle bundles <;>
    cases he : w.outputPathExists <;>
    rcases hp : w.icnsPath with _ | icon <;>
    simp [successTrace, log_trace, clean_trace, tempdir_trace, support_trace,
      copy_app_trace, eula_trace, icns_trace, print_trace, hdiutil_trace,
      rename_trace, sign_trace, hn, he, hp, hid, List.count_cons, List.count_append]

/-! Helper lemmas: the run is invariant under the license path and the CI
variable, up to the `Settings` payload recorded in collaborator events. -/

@[simp] theorem setLicense_license (s : Settings) (l : Option String) :
    (setLicense s l).license = l := rfl

@[simp] theorem setLicense_signing (s : Settings) (l : Option String) :
    (setLicense s l).signing_identity = s.signing_identity := rfl

@[simp] theorem setLicense_main_binary (s : Settings) (l : Option String) :
    (setLicense s l).main_binary_name = s.main_binary_name := rfl

@[simp] theorem setLicense_dmg_path (s : Settings) (l : Option String) :
    dmg_path (setLicense s l) = dmg_path s := rfl

@[simp] theorem setLicense_dmg_name (s : Settings) (l : Option String) :
    dmg_name (setLicense s l) = dmg_name s := rfl

@[simp] theorem setLicense_output_path (s : Settings) (l : Option String) :
    output_path (setLicense s l) = output_path s := rfl

@[simp] theorem setLicense_bundle_dir (s : Settings) (l : Option String) :
    bundle_dir (setLicense s l) = bundle_dir s := rfl

@[simp] theorem setLicense_temp_dir (s : Settings) (l : Option String) :
    temp_dir (setLicense s l) = temp_dir s := rfl

@[simp] theorem setLicense_support_dir (s : Settings) (l : Option String) :
    support_dir (setLicense s l) = support_dir s := rfl

@[simp] theorem setLicense_bundle_file_name (s : Settings) (l : Option String) :
    bundle_file_name (setLicense s l) = bundle_file_name s := rfl

@[simp] theorem setLicense_hdiutil_args (s : Settings) (l : Option String) :
    hdiutil_args (setLicense s l) = hdiutil_args s := rfl

@[simp] theorem setCi_ciVar (w : World) (c : Option String) :
    (setCi w c).ciVar = c := rfl

@[simp] theorem setCi_buildAppErr (w : World) (c : Option String) :
    (setCi w c).buildAppErr = w.buildAppErr := rfl

@[simp] theorem setCi_outputPathExists (w : World) (c : Option String) :
    (setCi w c).outputPathExists = w.outputPathExists := rfl

@[simp] theorem setCi_removeOldErr (w : World) (c : Option String) :
    (setCi w c).removeOldErr = w.removeOldErr := rfl

@[simp] theorem setCi_createTempErr (w : World) (c : Option String) :
    (setCi w c).createTempErr = w.createTempErr := rfl

@[simp] theorem setCi_createSupportErr (w : World) (c : Option String) :
    (setCi w c).createSupportErr = w.createSupportErr := rfl

@[simp] theorem setCi_copyAppErr (w : World) (c : Option String) :
    (setCi w c).copyAppErr = w.copyAppErr := rfl

@[simp] theorem setCi_writeEulaErr (w : World) (c : Option String) :
    (setCi w c).writeEulaErr = w.writeEulaErr := rfl

@[simp] theorem setCi_icnsErr (w : World) (c : Option String) :
    (setCi w c).icnsErr = w.icnsErr := rfl

@[simp] theorem setCi_icnsPath (w : World) (c : Option String) :
    (setCi w c).icnsPath = w.icnsPath := rfl

@[simp] theorem setCi_copyIconErr (w : World) (c : Option String) :
    (setCi w c).copyIconErr = w.copyIconErr := rfl

@[simp] theorem setCi_hdiutilLaunchErr (w : World) (c : Option String) :
    (setCi w c).hdiutilLaunchErr = w.hdiutilLaunchErr := rfl

@[simp] theorem setCi_renameErr (w : World) (c : Option String) :
    (setCi w c).renameErr = w.renameErr := rfl

@[simp] theorem setCi_signErr (w : World) (c : Option String) :
    (setCi w c).signErr = w.signErr := rfl

theorem c10_step_sign (s : Settings) (w : World) (l : Option String) (c : Option String) :
    (step_sign (setLicense s l) (setCi w c)).1 = (step_sign s w).1 ∧
      (step_sign (setLicense s l) (setCi w c)).2.map Event.opOf
        = (step_sign s w).2.map Event.opOf := by
  cases hid : s.signing_identity <;> cases hse : w.signErr <;>
    simp [step_sign, hid, hse, Event.opOf]

theorem c10_step_rename (s : Settings) (w : World) (l : Option String) (c : Option String) :
    (step_rename (setLicense s l) (setCi w c)).1 = (step_rename s w).1 ∧
      (step_rename (setLicense s l) (setCi w c)).2.map Event.opOf
        = (step_rename s w).2.map Event.opOf := by
  obtain ⟨h1, h2⟩ := c10_step_sign s w l c
  cases hr : w.renameErr <;>
    simp [step_rename, hr, Event.opOf, h1, h2]

theorem c10_step_hdiutil (s : Settings) (w : World) (l : Option String) (c : Option String) :
    (step_hdiutil (setLicense s l) (setCi w c)).1 = (step_hdiutil s w).1 ∧
      (step_hdiutil (setLicense s l) (setCi w c)).2.map Event.opOf
        = (step_hdiutil s w).2.map Event.opOf := by
  obtain ⟨h1, h2⟩ := c10_step_rename s w l c
  cases hh : w.hdiutilLaunchErr <;>
    simp [step_hdiutil, hh, Event.opOf, h1, h2]

theorem c10_step_print (s : Settings) (w : World) (l : Option String) (c : Option String) :
    (step_print (setLicense s l) (setCi w c)).1 = (step_print s w).1 ∧
      (step_print (setLicense s l) (setCi w c)).2.map Event.opOf
        = (step_print s w).2.map Event.opOf := by
  obtain ⟨h1, h2⟩ := c10_step_hdiutil s w l c
  simp [step_print, Event.opOf, h1, h2]

theorem c10_step_icns (s : Settings) (w : World) (l : Option String) (c : Option String) :
    (step_icns (setLicense s l) (setCi w c)).1 = (step_icns s w).1 ∧
      (step_icns (setLicense s l) (setCi w c)).2.map Event.opOf
        = (step_icns s w).2.map Event.opOf := by
  obtain ⟨h1, h2⟩ := c10_step_print s w l c
  cases hi : w.icnsErr <;> rcases hp : w.icnsPath with _ | icon <;>
    cases hc : w.copyIconErr <;>
    simp [step_icns, license_skip, ci_skip, hi, hp, hc, Event.opOf, h1, h2]

theorem c10_step_eula (s : Settings) (w : World) (l : Option String) (c : Option String) :
    (step_write_eula (setLicense s l) (setCi w c)).1 = (step_write_eula s w).1 ∧
      (step_write_eula (setLicense s l) (setCi w c)).2.map Event.opOf
        = (step_write_eula s w).2.map Event.opOf := by
  obtain ⟨h1, h2⟩ := c10_step_icns s w l c
  cases he : w.writeEulaErr <;>
    simp [step_write_eula, he, Event.opOf, h1, h2]

theorem c10_step_copy_app (s : Settings) (w : World) (l : Option String) (c : Option String) :
    (step_copy_app (setLicense s l) (setCi w c)).1 = (step_copy_app s w).1 ∧
      (step_copy_app (setLicense s l) (setCi w c)).2.map Event.opOf
        = (step_copy_app s w).2.map Event.opOf := by
  obtain ⟨h1, h2⟩ := c10_step_eula s w l c
  cases hc : w.copyAppErr <;>
    simp [step_copy_app, hc, Event.opOf, h1, h2]

theorem c10_step_support (s : Settings) (w : World) (l : Option String) (c : Option String) :
    (step_create_support (setLicense s l) (setCi w c)).1 = (step_create_support s w).1 ∧
      (step_create_support (setLicense s l) (setCi w c)).2.map Event.opOf
        = (step_create_support s w).2.map Event.opOf := by
  obtain ⟨h1, h2⟩ := c10_step_copy_app s w l c
  cases hs : w.createSupportErr <;>
    simp [step_create_support, hs, Event.opOf, h1, h2]

theorem c10_step_temp (s : Settings) (w : World) (l : Option String) (c : Option String) :
    (step_create_temp (setLicense s l) (setCi w c)).1 = (step_create_temp s w).1 ∧
      (step_create_temp (setLicense s l) (setCi w c)).2.map Event.opOf
        = (step_create_temp s w).2.map Event.opOf := by
  obtain ⟨h1, h2⟩ := c10_step_support s w l c
  cases ht : w.createTempErr <;>
    simp [step_create_temp, ht, Event.opOf, h1, h2]

theorem c10_step_clean (s : Settings) (w : World) (l : Option String) (c : Option String) :
    (step_clean_old (setLicense s l) (setCi w c)).1 = (step_clean_old s w).1 ∧
      (step_clean_old (setLicense s l) (setCi w c)).2.map Event.opOf
        = (step_clean_old s w).2.map Event.opOf := by
  obtain ⟨h1, h2⟩ := c10_step_temp s w l c
  cases he : w.outputPathExists <;> cases hr : w.removeOldErr <;>
    simp [step_clean_old, he, hr, Event.opOf, h1, h2]

theorem c10_step_log (s : Settings) (w : World) (l : Option String) (c : Option String) :
    (step_log (setLicense s l) (setCi w c)).1 = (step_log s w).1 ∧
      (step_log (setLicense s l) (setCi w c)).2.map Event.opOf
        = (step_log s w).2.map Event.opOf := by
  obtain ⟨h1, h2⟩ := c10_step_clean s w l c
  simp [step_log, Event.opOf, h1, h2]

theorem c10_bundle (s : Settings) (bundles : List Bundle) (w : World)
    (l : Option String) (c : Option String) :
    (bundle_project (setLicense s l) bundles (setCi w c)).1
        = (bundle_project s bundles w).1 ∧
      (bundle_project (setLicense s l) bundles (setCi w c)).2.map Event.opOf
        = (bundle_project s bundles w).2.map Event.opOf := by
  obtain ⟨h1, h2⟩ := c10_step_log s w l c
  cases hn : needs_app_bundle bundles <;> cases hb : w.buildAppErr <;>
    simp [bundle_project, hn, hb, Event.opOf, h1, h2]

/-! Helper lemmas: what a successful run leaves on the abstract filesystem. -/

theorem dropLast_ne_of_long (out p : Path) (h : out.length + 2 ≤ p.length) :
    p.dropLast ≠ out := by
  intro hEq
  have hlen := congrArg List.length hEq
  rw [List.length_dropLast] at hlen
  omega

theorem dropLast_eq_isUnder (out f : Path) (hout : out ≠ [])
    (h : f.dropLast = out) : isUnder out f = true := by
  have hf : f ≠ [] := by
    intro hn
    rw [hn, List.dropLast_nil] at h
    exact hout h.symm
  have hsplit : out ++ [f.getLast hf] = f := by
    rw [← h]; exact List.dropLast_append_getLast hf
  have hlen : f.length = out.length + 1 := by
    rw [← hsplit]; simp
  have hne : out ≠ f := by
    intro hEq
    rw [hEq] at hlen
    omega
  have hpre : out <+: f := ⟨[f.getLast hf], hsplit⟩
  simp [isUnder, List.isPrefixOf_iff_prefix, hpre, hne]

theorem not_under_dropLast_ne (out f : Path) (hout : out ≠ [])
    (h : isUnder out f = false) : f.dropLast ≠ out := by
  intro hEq
  simp [dropLast_eq_isUnder out f hout hEq] at h

theorem output_path_ne_nil (s : Settings) : output_path s ≠ [] := by
  simp [output_path]

theorem filter_keep_dmg (out src dmgP : Path) (L : List Path)
    (hd : dmgP.dropLast = out)
    (hL : ∀ f ∈ L, f = src ∨ f.dropLast ≠ out) :
    List.filter (fun f => decide (f.dropLast = out))
      (dmgP :: List.filter (fun f => decide (f ≠ src)) L) = [dmgP] := by
  rw [List.filter_cons_of_pos (by simp [hd])]
  have hnil : List.filter (fun f => decide (f.dropLast = out))
      (List.filter (fun f => decide (f ≠ src)) L) = [] := by
    refine List.filter_eq_nil_iff.mpr ?_
    intro f hf
    rw [List.mem_filter] at hf
    rcases hL f hf.1 with h | h
    · have := hf.2; simp [h] at this
    · simp [h]
  rw [hnil]

theorem foldl_sign (s : Settings) (w : World) (acc : List Path) :
    List.foldl (applyEvent w) acc (sign_trace s) = acc := by
  cases hid : s.signing_identity <;> simp [sign_trace, hid, applyEvent]

theorem foldl_rename (s : Settings) (w : World) (acc : List Path) :
    List.foldl (applyEvent w) acc (rename_trace s)
      = dmg_path s
          :: acc.filter (fun f => decide (f ≠ bundle_dir s ++ [dmg_name s])) := by
  simp [rename_trace, applyEvent, foldl_sign]

theorem foldl_hdiutil (s : Settings) (w : World) (acc : List Path) :
    List.foldl (applyEvent w) acc (hdiutil_trace s)
      = dmg_path s
          :: acc.filter (fun f => decide (f ≠ bundle_dir s ++ [dmg_name s])) := by
  simp [hdiutil_trace, hdiutil_args, applyEvent, foldl_rename]

theorem foldl_print (s : Settings) (w : World) (acc : List Path) :
    List.foldl (applyEvent w) acc (print_trace s)
      = dmg_path s
          :: acc.filter (fun f => decide (f ≠ bundle_dir s ++ [dmg_name s])) := by
  simp [print_trace, applyEvent, foldl_hdiutil]

theorem foldl_icns (s : Settings) (w : World) (acc : List Path) :
    List.foldl (applyEvent w) acc (icns_trace s w)
      = dmg_path s
          :: (((match w.icnsPath with
                | some _ => [temp_dir s ++ [".VolumeIcon.icns"]]
                | none => ([] : List Path)) ++ (w.icnsFiles ++ acc)).filter
              (fun f => decide (f ≠ bundle_dir s ++ [dmg_name s]))) := by
  cases hp : w.icnsPath <;>
    simp [icns_trace, hp, applyEvent, foldl_print]

theorem foldl_eula (s : Settings) (w : World) (acc : List Path) :
    List.foldl (applyEvent w) acc (eula_trace s w)
      = dmg_path s
          :: (((match w.icnsPath with
                | some _ => [temp_dir s ++ [".VolumeIcon.icns"]]
                | none => ([] : List Path))
              ++ (w.icnsFiles
                ++ ((support_dir s ++ ["eula-resources-template.xml"]) :: acc))).filter
              (fun f => decide (f ≠ bundle_dir s ++ [dmg_name s]))) := by
  simp [eula_trace, applyEvent, foldl_icns]

theorem foldl_copy_app (s : Settings) (w : World) (acc : List Path) :
    List.foldl (applyEvent w) acc (copy_app_trace s w)
      = dmg_path s
          :: (((match w.icnsPath with
                | some _ => [temp_dir s ++ [".VolumeIcon.icns"]]
                | none => ([] : List Path))
              ++ (w.icnsFiles
                ++ ((support_dir s ++ ["eula-resources-template.xml"])
                  :: ((w.appBundleFiles.map
                        fun rel => (temp_dir s ++ [bundle_file_name s]) ++ rel)
                    ++ acc)))).filter
              (fun f => decide (f ≠ bundle_dir s ++ [dmg_name s]))) := by
  simp [copy_app_trace, applyEvent, foldl_eula]

theorem foldl_clean (s : Settings) (w : World) (acc : List Path)
    (hex : w.outputPathExists = true) :
    List.foldl (applyEvent w) acc (clean_trace s w)
      = dmg_path s
          :: (((match w.icnsPath with
                | some _ => [temp_dir s ++ [".VolumeIcon.icns"]]
                | none => ([] : List Path))
              ++ (w.icnsFiles
                ++ ((support_dir s ++ ["eula-resources-template.xml"])
                  :: ((w.appBundleFiles.map
                        fun rel => (temp_dir s ++ [bundle_file_name s]) ++ rel)
                    ++ (acc.filter fun f => !(isUnder (output_path s) f)))))).filter
              (fun f => decide (f ≠ bundle_dir s ++ [dmg_name s]))) := by
  simp [clean_trace, tempdir_trace, support_trace, hex, applyEvent, foldl_copy_app]

theorem foldl_success (s : Settings) (bundles : List Bundle) (w : World)
    (acc : List Path) (hex : w.outputPathExists = true) :
    List.foldl (applyEvent w) acc (successTrace s bundles w)
      = dmg_path s
          :: (((match w.icnsPath with
                | some _ => [temp_dir s ++ [".VolumeIcon.icns"]]
                | none => ([] : List Path))
              ++ (w.icnsFiles
                ++ ((support_dir s ++ ["eula-resources-template.xml"])
                  :: ((w.appBundleFiles.map
                        fun rel => (temp_dir s ++ [bundle_file_name s]) ++ rel)
                    ++ (((if needs_app_bundle bundles then w.buildAppFiles else [])
                          ++ acc).filter
                        fun f => !(isUnder (output_path s) f)))))).filter
              (fun f => decide (f ≠ bundle_dir s ++ [dmg_name s]))) := by
  cases hn : needs_app_bundle bundles <;>
    simp [successTrace, log_trace, hn, applyEvent, foldl_clean s w _ hex]

theorem c3_members (s : Settings) (w : World) (g : List Path)
    (hicns : ∀ f ∈ w.icnsFiles, f.dropLast ≠ output_path s) :
    ∀ f ∈ ((match w.icnsPath with
            | some _ => [temp_dir s ++ [".VolumeIcon.icns"]]
            | none => ([] : List Path))
          ++ (w.icnsFiles
            ++ ((support_dir s ++ ["eula-resources-template.xml"])
              :: ((w.appBundleFiles.map
                    fun rel => (temp_dir s ++ [bundle_file_name s]) ++ rel)
                ++ (g.filter fun f => !(isUnder (output_path s) f)))))),
      f = bundle_dir s ++ [dmg_name s] ∨ f.dropLast ≠ output_path s := by
  intro f hf
  right
  rw [List.mem_append] at hf
  rcases hf with hf | hf
  · rcases hp : w.icnsPath with _ | icon <;> rw [hp] at hf
    · simp at hf
    · simp at hf
      subst hf
      refine dropLast_ne_of_long _ _ ?_
      simp [temp_dir, output_path]
  · rw [List.mem_append] at hf
    rcases hf with hf | hf
    · exact hicns f hf
    · rw [List.mem_cons] at hf
      rcases hf with hf | hf
      · subst hf
        refine dropLast_ne_of_long _ _ ?_
        simp [support_dir, temp_dir, output_path]
      · rw [List.mem_append] at hf
        rcases hf with hf | hf
        · rw [List.mem_map] at hf
          obtain ⟨rel, _, hrel⟩ := hf
          subst hrel
          refine dropLast_ne_of_long _ _ ?_
          simp [temp_dir, output_path]
          omega
        · rw [List.mem_filter] at hf
          refine not_under_dropLast_ne _ _ (output_path_ne_nil s) ?_
          have := hf.2
          simp at this
          exact this

theorem dmg_path_dropLast (s : Settings) : (dmg_path s).dropLast = output_path s := by
  simp [dmg_path, List.dropLast_concat]

theorem c3_run_files (s : Settings) (bundles : List Bundle) (w : World)
    (files : List Path) (l : List Path)
    (hex : w.outputPathExists = true)
    (hok : (bundle_project s bundles w).1 = Except.ok l)
    (hicns : ∀ f ∈ w.icnsFiles, f.dropLast ≠ output_path s) :
    (runTrace w files (bundle_project s bundles w).2).filter
      (fun f => decide (f.dropLast = output_path s)) = [dmg_path s] := by
  obtain ⟨hl, htr, hall⟩ := ok_bundle s bundles w l hok
  rw [htr]
  rw [runTrace, foldl_success s bundles w files hex]
  exact filter_keep_dmg (output_path s) (bundle_dir s ++ [dmg_name s]) (dmg_path s) _
    (dmg_path_dropLast s)
    (c3_members s w ((if needs_app_bundle bundles then w.buildAppFiles else []) ++ files)
      hicns)

/-! Helper lemmas: the shape of the trace before the pre-clean, and the
absence of a compiler invocation when the staging copy fails. -/

theorem clean_head (s : Settings) (w : World) (hex : w.outputPathExists = true) :
    ∃ t, (step_clean_old s w).2 = Event.removeDirAll (output_path s) :: t := by
  cases hr : w.removeOldErr with
  | some e => exact ⟨[], by simp [step_clean_old, hex, hr]⟩
  | none => exact ⟨(step_create_temp s w).2, by simp [step_clean_old, hex, hr]⟩

theorem c3_before_clean (s : Settings) (bundles : List Bundle) (w : World)
    (hex : w.outputPathExists = true) :
    ∀ e ∈ (bundle_project s bundles w).2.takeWhile
        (fun ev => decide (ev ≠ Event.removeDirAll (output_path s))),
      e = Event.buildApp s ∨ e = Event.logInfo (dmg_name s) (dmg_path s) := by
  obtain ⟨t, ht⟩ := clean_head s w hex
  cases hn : needs_app_bundle bundles with
  | false =>
    simp [bundle_project, step_log, hn, ht, List.takeWhile]
  | true =>
    cases hb : w.buildAppErr with
    | some e => simp [bundle_project, hn, hb, List.takeWhile]
    | none => simp [bundle_project, step_log, hn, hb, ht, List.takeWhile]

theorem no_run_copy_fail (s : Settings) (w : World) (e : Err)
    (hc : w.copyAppErr = some e) :
    ∀ ev ∈ (step_copy_app s w).2, ev.isRunProcess = false := by
  simp [step_copy_app, hc, Event.isRunProcess]

theorem no_run_support (s : Settings) (w : World) (e : Err)
    (hc : w.copyAppErr = some e) :
    ∀ ev ∈ (step_create_support s w).2, ev.isRunProcess = false := by
  cases hs : w.createSupportErr with
  | some e' => simp [step_create_support, hs, Event.isRunProcess]
  | none =>
    intro ev hev
    simp [step_create_support, hs] at hev
    rcases hev with hev | hev
    · simp [hev, Event.isRunProcess]
    · exact no_run_copy_fail s w e hc ev hev

theorem no_run_temp (s : Settings) (w : World) (e : Err)
    (hc : w.copyAppErr = some e) :
    ∀ ev ∈ (step_create_temp s w).2, ev.isRunProcess = false := by
  cases ht : w.createTempErr with
  | some e' => simp [step_create_temp, ht, Event.isRunProcess]
  | none =>
    intro ev hev
    simp [step_create_temp, ht] at hev
    rcases hev with hev | hev
    · simp [hev, Event.isRunProcess]
    · exact no_run_support s w e hc ev hev

theorem no_run_clean (s : Settings) (w : World) (e : Err)
    (hc : w.copyAppErr = some e) :
    ∀ ev ∈ (step_clean_old s w).2, ev.isRunProcess = false := by
  cases he : w.outputPathExists with
  | false =>
    intro ev hev
    rw [step_clean_old] at hev
    simp [he] at hev
    exact no_run_temp s w e hc ev hev
  | true =>
    cases hr : w.removeOldErr with
    | some e' => simp [step_clean_old, he, hr, Event.isRunProcess]
    | none =>
      intro ev hev
      simp [step_clean_old, he, hr] at hev
      rcases hev with hev | hev
      · simp [hev, Event.isRunProcess]
      · exact no_run_temp s w e hc ev hev

theorem no_run_log (s : Settings) (w : World) (e : Err)
    (hc : w.copyAppErr = some e) :
    ∀ ev ∈ (step_log s w).2, ev.isRunProcess = false := by
  intro ev hev
  simp [step_log] at hev
  rcases hev with hev | hev
  · simp [hev, Event.isRunProcess]
  · exact no_run_clean s w e hc ev hev

theorem no_run_bundle (s : Settings) (bundles : List Bundle) (w : World) (e : Err)
    (hc : w.copyAppErr = some e) :
    ∀ ev ∈ (bundle_project s bundles w).2, ev.isRunProcess = false := by
  cases hn : needs_app_bundle bundles with
  | false =>
    intro ev hev
    simp [bundle_project, hn] at hev
    exact no_run_log s w e hc ev hev
  | true =>
    cases hb : w.buildAppErr with
    | some e' => simp [bundle_project, hn, hb, Event.isRunProcess]
    | none =>
      intro ev hev
      simp [bundle_project, hn, hb] at hev
      rcases hev with hev | hev
      · simp [hev, Event.isRunProcess]
      · exact no_run_log s w e hc ev hev

/-! Helper lemmas: the trace of the icon step is contained in the trace of
the whole run whenever the run reaches it. -/

theorem icns_has_copy (s : Settings) (w : World) (p : Path)
    (hi : w.icnsErr = none) (hp : w.icnsPath = some p) :
    Event.copyFile p (temp_dir s ++ [".VolumeIcon.icns"]) ∈ (step_icns s w).2 := by
  cases hc : w.copyIconErr <;> simp [step_icns, hi, hp, hc]

theorem sub_eula (s : Settings) (w : World) (h : w.writeEulaErr = none) :
    ∀ ev ∈ (step_icns s w).2, ev ∈ (step_write_eula s w).2 := by
  intro ev hev
  simp [step_write_eula, h]
  exact Or.inr hev

theorem sub_copy_app (s : Settings) (w : World) (h : w.copyAppErr = none) :
    ∀ ev ∈ (step_write_eula s w).2, ev ∈ (step_copy_app s w).2 := by
  intro ev hev
  simp [step_copy_app, h]
  exact Or.inr hev

theorem sub_support (s : Settings) (w : World) (h : w.createSupportErr = none) :
    ∀ ev ∈ (step_copy_app s w).2, ev ∈ (step_create_support s w).2 := by
  intro ev hev
  simp [step_create_support, h]
  exact Or.inr hev

theorem sub_temp (s : Settings) (w : World) (h : w.createTempErr = none) :
    ∀ ev ∈ (step_create_support s w).2, ev ∈ (step_create_temp s w).2 := by
  intro ev hev
  simp [step_create_temp, h]
  exact Or.inr hev

theorem sub_clean (s : Settings) (w : World)
    (h : w.outputPathExists = true → w.removeOldErr = none) :
    ∀ ev ∈ (step_create_temp s w).2, ev ∈ (step_clean_old s w).2 := by
  intro ev hev
  cases he : w.outputPathExists with
  | false => simp [step_clean_old, he]; exact hev
  | true =>
    simp [step_clean_old, he, h he]
    exact Or.inr hev

theorem sub_log (s : Settings) (w : World) :
    ∀ ev ∈ (step_clean_old s w).2, ev ∈ (step_log s w).2 := by
  intro ev hev
  simp [step_log]
  exact Or.inr hev

theorem sub_bundle (s : Settings) (bundles : List Bundle) (w : World)
    (h : needs_app_bundle bundles = true → w.buildAppErr = none) :
    ∀ ev ∈ (step_log s w).2, ev ∈ (bundle_project s bundles w).2 := by
  intro ev hev
  cases hn : needs_app_bundle bundles with
  | false => simp [bundle_project, hn]; exact hev
  | true =>
    simp [bundle_project, hn, h hn]
    exact Or.inr hev

/-! The claims. -/

/-- C2: For every Settings, the planned final image path is a pure,
deterministic function of (output root, binary name, version, architecture):
it equals outputRoot/bundle/dmg/binary_version_arch.dmg, where the
architecture component is "x64" when the architecture is "x86_64" and the
architecture string unchanged otherwise; in particular the two spec
scenarios evaluate to /out/bundle/dmg/app_1.0.0_x64.dmg and
/out/bundle/dmg/app_2.0.0_aarch64.dmg. -/
theorem c2_final_path :
    (∀ s t : Settings,
      s.project_out_directory = t.project_out_directory →
      s.main_binary_name = t.main_binary_name →
      s.version_string = t.version_string →
      s.binary_arch = t.binary_arch → dmg_path s = dmg_path t) ∧
    (∀ s : Settings, dmg_path s
        = s.project_out_directory
            ++ ["bundle", "dmg",
                s.main_binary_name ++ "_" ++ s.version_string ++ "_"
                  ++ (if s.binary_arch = "x86_64" then "x64" else s.binary_arch)
                  ++ ".dmg"]) ∧
    renderPath (dmg_path sampleSettings) = "/out/bundle/dmg/app_1.0.0_x64.dmg" ∧
    renderPath (dmg_path sampleSettingsArm) = "/out/bundle/dmg/app_2.0.0_aarch64.dmg" := by
  refine ⟨?_, ?_, ?_, ?_⟩
  · intro s t h1 h2 h3 h4
    simp [dmg_path, output_path, dmg_name, package_base_name, arch_alias, h1, h2, h3, h4]
  · intro s
    simp [dmg_path, output_path, dmg_name, package_base_name, arch_alias]
  · rfl
  · rfl

/-- Witness for C2: the determinism part applied at two concrete
configurations that differ only in license path and signing identity. -/
theorem c2_final_path_witness :
    dmg_path ⟨["/o"], "b", "1", "aarch64", some "LICENSE", some "ID"⟩
      = dmg_path ⟨["/o"], "b", "1", "aarch64", none, none⟩ :=
  c2_final_path.1 _ _ rfl rfl rfl rfl

/-- C3: At the start of every run, if the output directory exists it is
recursively deleted before any staging or build event, and a failure of that
deletion aborts the run with its context; consequently a successful run over
any prior filesystem state (in particular, a second run over the first run's
leftovers) leaves exactly one file directly inside the output directory: the
image at the canonical path. -/
theorem c3_preclean_idempotence :
    ∀ (s : Settings) (bundles : List Bundle) (w : World),
      (∀ e : Err, (needs_app_bundle bundles = true → w.buildAppErr = none) →
        w.outputPathExists = true → w.removeOldErr = some e →
        (bundle_project s bundles w).1
          = Except.error (Err.context ("Failed to remove old " ++ dmg_name s) e)) ∧
      (w.outputPathExists = true →
        ∀ e ∈ (bundle_project s bundles w).2.takeWhile
            (fun ev => decide (ev ≠ Event.removeDirAll (output_path s))),
          e = Event.buildApp s ∨ e = Event.logInfo (dmg_name s) (dmg_path s)) ∧
      (∀ files l : List Path,
        w.outputPathExists = true →
        (bundle_project s bundles w).1 = Except.ok l →
        (∀ f ∈ w.icnsFiles, f.dropLast ≠ output_path s) →
        (runTrace w files (bundle_project s bundles w).2).filter
          (fun f => decide (f.dropLast = output_path s)) = [dmg_path s]) := by
  intro s bundles w
  refine ⟨?_, fun hex => c3_before_clean s bundles w hex,
    fun files l hex hok hicns => c3_run_files s bundles w files l hex hok hicns⟩
  intro e h1 hex hre
  rw [res_bundle s bundles w h1, res_log]
  simp [step_clean_old, hex, hre]

/-- Witness for C3: the abort branch and the single-artifact consequence at
a concrete configuration, starting from a filesystem already holding the
first run's image. -/
theorem c3_preclean_idempotence_witness :
    (bundle_project sampleSettings [] sampleWorldRemoveFail).1
      = Except.error (Err.context ("Failed to remove old " ++ dmg_name sampleSettings)
          (Err.io "permission denied")) ∧
    (runTrace sampleWorld [dmg_path sampleSettings]
        (bundle_project sampleSettings [] sampleWorld).2).filter
      (fun f => decide (f.dropLast = output_path sampleSettings))
        = [dmg_path sampleSettings] := by
  constructor
  · exact (c3_preclean_idempotence sampleSettings [] sampleWorldRemoveFail).1
      (Err.io "permission denied") (fun _ => rfl) rfl rfl
  · exact (c3_preclean_idempotence sampleSettings [] sampleWorld).2.2
      [dmg_path sampleSettings] [dmg_path sampleSettings] rfl rfl (by decide)

/-- C4: If no bundle descriptor carries the macOS application-bundle tag,
the application-bundle builder runs exactly once, as the very first event,
with the current Settings; its failure aborts the pipeline with the
underlying error and no further event; if some descriptor carries the tag,
the builder is never invoked. -/
theorem c4_prerequisite_builder :
    ∀ (s : Settings) (bundles : List Bundle) (w : World),
      (needs_app_bundle bundles = true →
        (bundle_project s bundles w).2.head? = some (Event.buildApp s) ∧
        (bundle_project s bundles w).2.count (Event.buildApp s) = 1) ∧
      (∀ e : Err, needs_app_bundle bundles = true → w.buildAppErr = some e →
        bundle_project s bundles w = (Except.error e, [Event.buildApp s])) ∧
      (needs_app_bundle bundles = false →
        ∀ t : Settings, Event.buildApp t ∉ (bundle_project s bundles w).2) := by
  intro s bundles w
  refine ⟨?_, ?_, ?_⟩
  · intro hn
    cases hb : w.buildAppErr with
    | some e => simp [bundle_project, hn, hb]
    | none =>
      have hnot : Event.buildApp s ∉ (step_log s w).2 := fun hmem =>
        buildApp_not_in_log s w s (mem_log s w _ hmem)
      refine ⟨by simp [bundle_project, hn, hb], ?_⟩
      simp [bundle_project, hn, hb, List.count_cons_self]
      exact List.count_eq_zero.mpr hnot
  · intro e hn hb
    simp [bundle_project, hn, hb]
  · intro hn t hmem
    rw [bundle_project] at hmem
    simp [hn] at hmem
    exact buildApp_not_in_log s w t (mem_log s w _ hmem)

/-- Witness for C4: the three branches at concrete inputs — invoked once and
first when no descriptor matches, aborting with the underlying error when
the builder fails, and never invoked when a macOS bundle already exists. -/
theorem c4_prerequisite_builder_witness :
    ((bundle_project sampleSettings [] sampleWorld).2.head?
        = some (Event.buildApp sampleSettings) ∧
      (bundle_project sampleSettings [] sampleWorld).2.count
        (Event.buildApp sampleSettings) = 1) ∧
    bundle_project sampleSettings [] sampleWorldBuildFail
      = (Except.error (Err.io "cargo build failed"), [Event.buildApp sampleSettings]) ∧
    Event.buildApp sampleSettings
      ∉ (bundle_project sampleSettings [⟨PackageType.MacOsBundle⟩] sampleWorld).2 :=
  ⟨(c4_prerequisite_builder sampleSettings [] sampleWorld).1 rfl,
   (c4_prerequisite_builder sampleSettings [] sampleWorldBuildFail).2.1
     (Err.io "cargo build failed") rfl rfl,
   (c4_prerequisite_builder sampleSettings [⟨PackageType.MacOsBundle⟩] sampleWorld).2.2
     rfl sampleSettings⟩

/-- C5: If the recursive copy of the application bundle into the staging
directory fails, the pipeline returns an error and no external process is
ever invoked; when the copy step is the one reached, the error carries the
copy step's context. -/
theorem c5_copy_failure_aborts :
    ∀ (s : Settings) (bundles : List Bundle) (w : World) (e : Err),
      (w.copyAppErr = some e →
        (∃ err, (bundle_project s bundles w).1 = Except.error err) ∧
        ∀ ev ∈ (bundle_project s bundles w).2, ev.isRunProcess = false) ∧
      ((needs_app_bundle bundles = true → w.buildAppErr = none) →
        (w.outputPathExists = true → w.removeOldErr = none) →
        w.createTempErr = none → w.createSupportErr = none →
        w.copyAppErr = some e →
        (bundle_project s bundles w).1
          = Except.error
              (Err.context "Failed to copy .app to temp folder to create DMG" e)) := by
  intro s bundles w e
  constructor
  · intro hc
    constructor
    · cases hres : (bundle_project s bundles w).1 with
      | error err => exact ⟨err, rfl⟩
      | ok l =>
        obtain ⟨-, -, hall⟩ := ok_bundle s bundles w l hres
        rw [hall.2.2.2.2.1] at hc
        simp at hc
    · exact no_run_bundle s bundles w e hc
  · intro h1 h2 h3 h4 hc
    rw [res_bundle s bundles w h1, res_log, res_clean s w h2, res_temp s w h3,
      res_support s w h4]
    simp [step_copy_app, hc]

/-- Witness for C5: a run whose staging copy fails returns the
contextualized error and its trace holds no process invocation. -/
theorem c5_copy_failure_aborts_witness :
    ((∃ err, (bundle_project sampleSettings [] sampleWorldCopyFail).1
        = Except.error err) ∧
      ∀ ev ∈ (bundle_project sampleSettings [] sampleWorldCopyFail).2,
        ev.isRunProcess = false) ∧
    (bundle_project sampleSettings [] sampleWorldCopyFail).1
      = Except.error (Err.context "Failed to copy .app to temp folder to create DMG"
          (Err.io "no such file or directory")) :=
  ⟨(c5_copy_failure_aborts sampleSettings [] sampleWorldCopyFail
      (Err.io "no such file or directory")).1 rfl,
   (c5_copy_failure_aborts sampleSettings [] sampleWorldCopyFail
      (Err.io "no such file or directory")).2 (fun _ => rfl) (fun _ => rfl) rfl rfl rfl⟩

/-- C6: With a signing identity configured, a successful run invokes the
signer exactly once, with the final relocated image path, the configured
identity, the Settings, and deep = false; every signer invocation that can
ever occur carries exactly those arguments; a signer failure is propagated
verbatim; with no identity configured the signer is never invoked and the
run succeeds when everything else does. -/
theorem c6_signing :
    ∀ (s : Settings) (bundles : List Bundle) (w : World),
      (∀ (l : List Path) (i : String),
        (bundle_project s bundles w).1 = Except.ok l →
        s.signing_identity = some i →
        (bundle_project s bundles w).2.count (Event.sign (dmg_path s) i s false) = 1) ∧
      (∀ (p : Path) (i : String) (t : Settings) (d : Bool),
        Event.sign p i t d ∈ (bundle_project s bundles w).2 →
        p = dmg_path s ∧ t = s ∧ d = false ∧ s.signing_identity = some i) ∧
      (∀ (i : String) (e : Err),
        (needs_app_bundle bundles = true → w.buildAppErr = none) →
        (w.outputPathExists = true → w.removeOldErr = none) →
        w.createTempErr = none → w.createSupportErr = none → w.copyAppErr = none →
        w.writeEulaErr = none → w.icnsErr = none →
        (∀ p, w.icnsPath = some p → w.copyIconErr = none) →
        w.hdiutilLaunchErr = none → w.renameErr = none →
        s.signing_identity = some i → w.signErr = some e →
        (bundle_project s bundles w).1 = Except.error e) ∧
      (s.signing_identity = none →
        ∀ (p : Path) (i : String) (t : Settings) (d : Bool),
          Event.sign p i t d ∉ (bundle_project s bundles w).2) ∧
      (s.signing_identity = none → AllOk s bundles w →
        (bundle_project s bundles w).1 = Except.ok [dmg_path s]) := by
  intro s bundles w
  refine ⟨?_, fun p i t d h => sign_shape s bundles w p i t d h, ?_, ?_, ?_⟩
  · intro l i hok hid
    obtain ⟨-, htr, -⟩ := ok_bundle s bundles w l hok
    rw [htr]
    exact sign_count s bundles w i hid
  · intro i e h1 h2 h3 h4 h5 h6 h7 h8 h9 h10 hid hse
    rw [res_bundle s bundles w h1, res_log, res_clean s w h2, res_temp s w h3,
      res_support s w h4, res_copy s w h5, res_eula s w h6, res_icns s w h7 h8,
      license_skip, ci_skip, res_print, res_hdiutil s w h9, res_rename s w h10]
    simp [step_sign, hid, hse]
  · intro hid p i t d hmem
    obtain ⟨-, -, -, hsome⟩ := sign_shape s bundles w p i t d hmem
    rw [hid] at hsome
    simp at hsome
  · intro _ hall
    exact allok_run s bundles w hall

/-- Witness for C6: the signer runs exactly once on the final path for a
signed configuration, a signer failure surfaces verbatim, and an unsigned
configuration succeeds without the signer. -/
theorem c6_signing_witness :
    (bundle_project sampleSettingsSigned [] sampleWorld).2.count
      (Event.sign (dmg_path sampleSettingsSigned) "Developer ID Application"
        sampleSettingsSigned false) = 1 ∧
    (bundle_project sampleSettingsSigned [] sampleWorldSignFail).1
      = Except.error (Err.io "signing identity not found") ∧
    (bundle_project sampleSettings [] sampleWorld).1
      = Except.ok [dmg_path sampleSettings] :=
  ⟨(c6_signing sampleSettingsSigned [] sampleWorld).1
      [dmg_path sampleSettingsSigned] "Developer ID Application" rfl rfl,
   (c6_signing sampleSettingsSigned [] sampleWorldSignFail).2.2.1
      "Developer ID Application" (Err.io "signing identity not found")
      (fun _ => rfl) (fun _ => rfl) rfl rfl rfl rfl rfl (fun _ _ => rfl) rfl rfl rfl rfl,
   (c6_signing sampleSettings [] sampleWorld).2.2.2.2 rfl
      ⟨fun _ => rfl, fun _ => rfl, rfl, rfl, rfl, rfl, rfl, fun _ _ => rfl, rfl, rfl,
       fun _ _ => rfl⟩⟩

/-- C7: When the run reaches the icon step and the generator returns a path,
that file is copied into the staging directory under the fixed hidden name
.VolumeIcon.icns; a generator failure aborts the run with its error; a
failure of the subsequent copy aborts the run with the icon context; when
the generator returns no path, no file copy is ever attempted. -/
theorem c7_volume_icon :
    ∀ (s : Settings) (bundles : List Bundle) (w : World),
      (∀ p : Path,
        (needs_app_bundle bundles = true → w.buildAppErr = none) →
        (w.outputPathExists = true → w.removeOldErr = none) →
        w.createTempErr = none → w.createSupportErr = none → w.copyAppErr = none →
        w.writeEulaErr = none →
        w.icnsErr = none → w.icnsPath = some p →
        Event.copyFile p (temp_dir s ++ [".VolumeIcon.icns"])
          ∈ (bundle_project s bundles w).2) ∧
      (∀ e : Err,
        (needs_app_bundle bundles = true → w.buildAppErr = none) →
        (w.outputPathExists = true → w.removeOldErr = none) →
        w.createTempErr = none → w.createSupportErr = none → w.copyAppErr = none →
        w.writeEulaErr = none →
        w.icnsErr = some e →
        (bundle_project s bundles w).1 = Except.error e) ∧
      (∀ (p : Path) (e : Err),
        (needs_app_bundle bundles = true → w.buildAppErr = none) →
        (w.outputPathExists = true → w.removeOldErr = none) →
        w.createTempErr = none → w.createSupportErr = none → w.copyAppErr = none →
        w.writeEulaErr = none →
        w.icnsErr = none → w.icnsPath = some p → w.copyIconErr = some e →
        (bundle_project s bundles w).1
          = Except.error (Err.context "Failed to create the DMG volume icon" e)) ∧
      (w.icnsPath = none →
        ∀ a b : Path, Event.copyFile a b ∉ (bundle_project s bundles w).2) := by
  intro s bundles w
  refine ⟨?_, ?_, ?_, ?_⟩
  · intro p h1 h2 h3 h4 h5 h6 hi hp
    exact sub_bundle s bundles w h1 _ (sub_log s w _
      (sub_clean s w h2 _ (sub_temp s w h3 _ (sub_support s w h4 _
        (sub_copy_app s w h5 _ (sub_eula s w h6 _ (icns_has_copy s w p hi hp)))))))
  · intro e h1 h2 h3 h4 h5 h6 hi
    rw [res_bundle s bundles w h1, res_log, res_clean s w h2, res_temp s w h3,
      res_support s w h4, res_copy s w h5, res_eula s w h6]
    simp [step_icns, hi]
  · intro p e h1 h2 h3 h4 h5 h6 hi hp hc
    rw [res_bundle s bundles w h1, res_log, res_clean s w h2, res_temp s w h3,
      res_support s w h4, res_copy s w h5, res_eula s w h6]
    simp [step_icns, hi, hp, hc]
  · intro hp a b hmem
    have := (copyFile_shape s bundles w a b hmem).1
    rw [hp] at this
    simp at this

/-- Witness for C7: the copy of the generated icon occurs on the successful
sample run, the generator failure and the icon-copy failure abort with the
expected errors, and a run whose generator returns no path performs no file
copy. -/
theorem c7_volume_icon_witness :
    Event.copyFile ["/out", "bundle", "dmg", "temp", "icon.icns"]
        (temp_dir sampleSettings ++ [".VolumeIcon.icns"])
      ∈ (bundle_project sampleSettings [] sampleWorld).2 ∧
    (bundle_project sampleSettings [] sampleWorldIcnsFail).1
      = Except.error (Err.io "bad png") ∧
    (bundle_project sampleSettings [] sampleWorldIconCopyFail).1
      = Except.error (Err.context "Failed to create the DMG volume icon"
          (Err.io "disk full")) :=
  ⟨(c7_volume_icon sampleSettings [] sampleWorld).1
      ["/out", "bundle", "dmg", "temp", "icon.icns"]
      (fun _ => rfl) (fun _ => rfl) rfl rfl rfl rfl rfl rfl,
   (c7_volume_icon sampleSettings [] sampleWorldIcnsFail).2.1 (Err.io "bad png")
      (fun _ => rfl) (fun _ => rfl) rfl rfl rfl rfl rfl,
   (c7_volume_icon sampleSettings [] sampleWorldIconCopyFail).2.2.1
      ["/out", "bundle", "dmg", "temp", "icon.icns"] (Err.io "disk full")
      (fun _ => rfl) (fun _ => rfl) rfl rfl rfl rfl rfl rfl rfl⟩

/-- C8: Every disk-image compiler invocation that can occur runs "hdiutil"
with working directory equal to the application-bundle's containing
directory (which differs from the staging directory and is the parent of
the copied .app), with arguments expressing create mode, the output image
name, the volume name equal to the product name, the HFS+ filesystem
format, and the staging directory as source folder, with stdout and stderr
piped; every successful run contains exactly this invocation. -/
theorem c8_compiler_invocation :
    ∀ (s : Settings) (bundles : List Bundle) (w : World),
      (∀ (n : String) (c : Path) (a : List String) (o p : Bool),
        Event.runProcess n c a o p ∈ (bundle_project s bundles w).2 →
        n = "hdiutil" ∧ c = bundle_dir s ∧ a = hdiutil_args s ∧ o = true ∧ p = true) ∧
      bundle_dir s ≠ temp_dir s ∧
      (bundle_dir s ++ [bundle_file_name s]).dropLast = bundle_dir s ∧
      hdiutil_args s
        = ["create", dmg_name s, "-volname", s.main_binary_name, "-fs", "HFS+",
           "-srcfolder", renderPath (temp_dir s)] ∧
      (∀ l : List Path, (bundle_project s bundles w).1 = Except.ok l →
        Event.runProcess "hdiutil" (bundle_dir s) (hdiutil_args s) true true
          ∈ (bundle_project s bundles w).2) := by
  intro s bundles w
  refine ⟨fun n c a o p h => runProcess_shape s bundles w n c a o p h, ?_,
    List.dropLast_concat, rfl, ?_⟩
  · intro h
    have hlen := congrArg List.length h
    simp [bundle_dir, temp_dir, output_path] at hlen
  · intro l hok
    obtain ⟨-, htr, -⟩ := ok_bundle s bundles w l hok
    rw [htr]
    cases hn : needs_app_bundle bundles <;> cases he : w.outputPathExists <;>
      rcases hp : w.icnsPath with _ | icon <;>
      simp [successTrace, log_trace, clean_trace, tempdir_trace, support_trace,
        copy_app_trace, eula_trace, icns_trace, print_trace, hdiutil_trace,
        hn, he, hp]

/-- Witness for C8: the canonical hdiutil invocation is present in the
successful sample run, and its recorded working directory and arguments are
the expected concrete values. -/
theorem c8_compiler_invocation_witness :
    Event.runProcess "hdiutil" (bundle_dir sampleSettings)
        (hdiutil_args sampleSettings) true true
      ∈ (bundle_project sampleSettings [] sampleWorld).2 ∧
    bundle_dir sampleSettings ≠ temp_dir sampleSettings :=
  ⟨(c8_compiler_invocation sampleSettings [] sampleWorld).2.2.2.2
      [dmg_path sampleSettings] rfl,
   (c8_compiler_invocation sampleSettings [] sampleWorld).2.1⟩

/-- C1 (the code contradicts the claim): when the hdiutil process launches
and exits with a non-zero code while every other operation succeeds, the
source discards the captured Output without inspecting its exit status, so
bundle_project proceeds to the relocation and returns Ok with the final
path instead of failing; only an I/O error launching the process is fatal. -/
theorem c1_nonzero_exit_not_fatal :
    sampleWorldBadExit.hdiutilOutput.exitCode ≠ 0 ∧
    (bundle_project sampleSettings [] sampleWorldBadExit).1
      = Except.ok [dmg_path sampleSettings] ∧
    Event.rename (bundle_dir sampleSettings ++ [dmg_name sampleSettings])
        (dmg_path sampleSettings)
      ∈ (bundle_project sampleSettings [] sampleWorldBadExit).2 := by
  refine ⟨by decide, rfl, by decide⟩

/-- Counterexample for C9: a run can fail with a bare, uncontextualized
underlying error — the relocation rename at source line 190 is propagated
by a plain question mark, so its error reaches the caller with no
contextual wrapping. -/
theorem c9_bare_relocation_error :
    (bundle_project sampleSettings [] sampleWorldRenameFail).1
      = Except.error (Err.io "cross-device rename refused") ∧
    Err.hasContext (Err.io "cross-device rename refused") = false :=
  ⟨rfl, rfl⟩

/-- C9 as amended: every failing step surfaces an error (none is silently
swallowed), and the pre-clean, staging-directory creation, support-directory
creation, app-bundle copy, volume-icon copy and compiler launch wrap their
errors with contextual information, while the prerequisite builder, the
license-template write, the icon generator, the relocation rename and the
signer propagate their underlying errors without added context. -/
theorem c9_error_contexts :
    ∀ (s : Settings) (bundles : List Bundle) (w : World) (e : Err),
      (needs_app_bundle bundles = true → w.buildAppErr = some e →
        (bundle_project s bundles w).1 = Except.error e) ∧
      ((needs_app_bundle bundles = true → w.buildAppErr = none) →
        w.outputPathExists = true → w.removeOldErr = some e →
        (bundle_project s bundles w).1
          = Except.error (Err.context ("Failed to remove old " ++ dmg_name s) e)) ∧
      ((needs_app_bundle bundles = true → w.buildAppErr = none) →
        (w.outputPathExists = true → w.removeOldErr = none) →
        w.createTempErr = some e →
        (bundle_project s bundles w).1
          = Except.error (Err.context
              ("Failed to create temporary directory at " ++ renderPath (temp_dir s)) e)) ∧
      ((needs_app_bundle bundles = true → w.buildAppErr = none) →
        (w.outputPathExists = true → w.removeOldErr = none) →
        w.createTempErr = none → w.createSupportErr = some e →
        (bundle_project s bundles w).1
          = Except.error (Err.context
              ("Failed to create support directory at " ++ renderPath (support_dir s)) e)) ∧
      ((needs_app_bundle bundles = true → w.buildAppErr = none) →
        (w.outputPathExists = true → w.removeOldErr = none) →
        w.createTempErr = none → w.createSupportErr = none → w.copyAppErr = some e →
        (bundle_project s bundles w).1
          = Except.error
              (Err.context "Failed to copy .app to temp folder to create DMG" e)) ∧
      ((needs_app_bundle bundles = true → w.buildAppErr = none) →
        (w.outputPathExists = true → w.removeOldErr = none) →
        w.createTempErr = none → w.createSupportErr = none → w.copyAppErr = none →
        w.writeEulaErr = some e →
        (bundle_project s bundles w).1 = Except.error e) ∧
      ((needs_app_bundle bundles = true → w.buildAppErr = none) →
        (w.outputPathExists = true → w.removeOldErr = none) →
        w.createTempErr = none → w.createSupportErr = none → w.copyAppErr = none →
        w.writeEulaErr = none → w.icnsErr = some e →
        (bundle_project s bundles w).1 = Except.error e) ∧
      (∀ p : Path,
        (needs_app_bundle bundles = true → w.buildAppErr = none) →
        (w.outputPathExists = true → w.removeOldErr = none) →
        w.createTempErr = none → w.createSupportErr = none → w.copyAppErr = none →
        w.writeEulaErr = none → w.icnsErr = none → w.icnsPath = some p →
        w.copyIconErr = some e →
        (bundle_project s bundles w).1
          = Except.error (Err.context "Failed to create the DMG volume icon" e)) ∧
      ((needs_app_bundle bundles = true → w.buildAppErr = none) →
        (w.outputPathExists = true → w.removeOldErr = none) →
        w.createTempErr = none → w.createSupportErr = none → w.copyAppErr = none →
        w.writeEulaErr = none → w.icnsErr = none →
        (∀ p, w.icnsPath = some p → w.copyIconErr = none) →
        w.hdiutilLaunchErr = some e →
        (bundle_project s bundles w).1
          = Except.error (Err.context "Error creating DMG for macOS" e)) ∧
      ((needs_app_bundle bundles = true → w.buildAppErr = none) →
        (w.outputPathExists = true → w.removeOldErr = none) →
        w.createTempErr = none → w.createSupportErr = none → w.copyAppErr = none →
        w.writeEulaErr = none → w.icnsErr = none →
        (∀ p, w.icnsPath = some p → w.copyIconErr = none) →
        w.hdiutilLaunchErr = none → w.renameErr = some e →
        (bundle_project s bundles w).1 = Except.error e) ∧
      (∀ i : String,
        (needs_app_bundle bundles = true → w.buildAppErr = none) →
        (w.outputPathExists = true → w.removeOldErr = none) →
        w.createTempErr = none → w.createSupportErr = none → w.copyAppErr = none →
        w.writeEulaErr = none → w.icnsErr = none →
        (∀ p, w.icnsPath = some p → w.copyIconErr = none) →
        w.hdiutilLaunchErr = none → w.renameErr = none →
        s.signing_identity = some i → w.signErr = some e →
        (bundle_project s bundles w).1 = Except.error e) := by
  intro s bundles w e
  refine ⟨?_, ?_, ?_, ?_, ?_, ?_, ?_, ?_, ?_, ?_, ?_⟩
  · intro hn hb
    simp [bundle_project, hn, hb]
  · intro h1 hex hre
    rw [res_bundle s bundles w h1, res_log]
    simp [step_clean_old, hex, hre]
  · intro h1 h2 h3
    rw [res_bundle s bundles w h1, res_log, res_clean s w h2]
    simp [step_create_temp, h3]
  · intro h1 h2 h3 h4
    rw [res_bundle s bundles w h1, res_log, res_clean s w h2, res_temp s w h3]
    simp [step_create_support, h4]
  · intro h1 h2 h3 h4 h5
    rw [res_bundle s bundles w h1, res_log, res_clean s w h2, res_temp s w h3,
      res_support s w h4]
    simp [step_copy_app, h5]
  · intro h1 h2 h3 h4 h5 h6
    rw [res_bundle s bundles w h1, res_log, res_clean s w h2, res_temp s w h3,
      res_support s w h4, res_copy s w h5]
    simp [step_write_eula, h6]
  · intro h1 h2 h3 h4 h5 h6 h7
    rw [res_bundle s bundles w h1, res_log, res_clean s w h2, res_temp s w h3,
      res_support s w h4, res_copy s w h5, res_eula s w h6]
    simp [step_icns, h7]
  · intro p h1 h2 h3 h4 h5 h6 h7 hp hc
    rw [res_bundle s bundles w h1, res_log, res_clean s w h2, res_temp s w h3,
      res_support s w h4, res_copy s w h5, res_eula s w h6]
    simp [step_icns, h7, hp, hc]
  · intro h1 h2 h3 h4 h5 h6 h7 h8 hh
    rw [res_bundle s bundles w h1, res_log, res_clean s w h2, res_temp s w h3,
      res_support s w h4, res_copy s w h5, res_eula s w h6, res_icns s w h7 h8,
      license_skip, ci_skip, res_print]
    simp [step_hdiutil, hh]
  · intro h1 h2 h3 h4 h5 h6 h7 h8 h9 hr
    rw [res_bundle s bundles w h1, res_log, res_clean s w h2, res_temp s w h3,
      res_support s w h4, res_copy s w h5, res_eula s w h6, res_icns s w h7 h8,
      license_skip, ci_skip, res_print, res_hdiutil s w h9]
    simp [step_rename, hr]
  · intro i h1 h2 h3 h4 h5 h6 h7 h8 h9 h10 hid hse
    rw [res_bundle s bundles w h1, res_log, res_clean s w h2, res_temp s w h3,
      res_support s w h4, res_copy s w h5, res_eula s w h6, res_icns s w h7 h8,
      license_skip, ci_skip, res_print, res_hdiutil s w h9, res_rename s w h10]
    simp [step_sign, hid, hse]

/-- Witness for C9 as amended: the relocation error surfaces bare while the
compiler-launch error surfaces with its context, at concrete inputs. -/
theorem c9_error_contexts_witness :
    (bundle_project sampleSettings [] sampleWorldRenameFail).1
      = Except.error (Err.io "cross-device rename refused") ∧
    (bundle_project sampleSettings [] sampleWorldLaunchFail).1
      = Except.error (Err.context "Error creating DMG for macOS"
          (Err.io "hdiutil not found")) :=
  ⟨(c9_error_contexts sampleSettings [] sampleWorldRenameFail
      (Err.io "cross-device rename refused")).2.2.2.2.2.2.2.2.2.1
      (fun _ => rfl) (fun _ => rfl) rfl rfl rfl rfl rfl (fun _ _ => rfl) rfl rfl,
   (c9_error_contexts sampleSettings [] sampleWorldLaunchFail
      (Err.io "hdiutil not found")).2.2.2.2.2.2.2.2.1
      (fun _ => rfl) (fun _ => rfl) rfl rfl rfl rfl rfl (fun _ _ => rfl) rfl⟩

/-- C10: the pipeline's result and its settings-free operation sequence are
the same for any two runs whose Settings differ only in the optional
license path and whose environments differ only in the CI variable (both
conditional branches perform no operation); a run with no license path
configured succeeds without any license-related step. -/
theorem c10_license_ci_independence :
    (∀ (s : Settings) (bundles : List Bundle) (w : World)
        (l₁ l₂ c₁ c₂ : Option String),
      (bundle_project (setLicense s l₁) bundles (setCi w c₁)).1
          = (bundle_project (setLicense s l₂) bundles (setCi w c₂)).1 ∧
        (bundle_project (setLicense s l₁) bundles (setCi w c₁)).2.map Event.opOf
          = (bundle_project (setLicense s l₂) bundles (setCi w c₂)).2.map Event.opOf) ∧
    (bundle_project sampleSettings [] sampleWorld).1
      = Except.ok [dmg_path sampleSettings] := by
  constructor
  · intro s bundles w l₁ l₂ c₁ c₂
    obtain ⟨a1, a2⟩ := c10_bundle s bundles w l₁ c₁
    obtain ⟨b1, b2⟩ := c10_bundle s bundles w l₂ c₂
    exact ⟨a1.trans b1.symm, a2.trans b2.symm⟩
  · rfl

end TauriDmg
